import Mathlib

/-!
# ProvenCore shared-devices monitor (`drivers/provencore/shdev`)

A shallow embedding of the shared-devices driver: the shared layout of
`shdev.h`, the storage relay of `mmcblk.c` (user partition and RPMB), the
network and SPI operation tables and, of `shdev.c`, the work item
`device_work_func`, `handle_signal`, `configure`, the monitor thread and the
module exit.

Conventions of the embedding.

* C unsigned integers are `Nat`, reduced modulo `2 ^ w` where the C code
  narrows; C signed integers are `Int`, narrowed with `toInt32` / `toInt64`.
* Calls into the kernel are answered by an environment `Env`: every oracle
  receives the trace of the calls made so far, so that the same call may be
  answered differently over time.  Every such call is recorded in the trace
  of the `World`.
* The shared region is kept as its three parts: the `shdev_infos_t` header
  with the descriptor table, the MMC entry block and the MMC data buffer,
  that is, the pointers `_shdev_shm_addr + entry_offset` and
  `_shdev_shm_addr + data_offset` are resolved to the blocks that
  `configure` lays out for them.
* `printk` output is not part of the model.
* Loops that the driver may run for ever (the retry of the session binding,
  the monitoring loop) take a bound on the number of iterations and yield
  `none` when it is used up.
-/

namespace Shdev

/-! ## Integer conversions -/

/-- Conversion to a 32-bit `int` (two's complement wrap-around). -/
def toInt32 (x : Int) : Int := (x + 2 ^ 31) % 2 ^ 32 - 2 ^ 31

/-- Conversion to a 64-bit signed integer (`loff_t`). -/
def toInt64 (x : Int) : Int := (x + 2 ^ 63) % 2 ^ 64 - 2 ^ 63

/-- Conversion to `uint16_t`. -/
def toUInt16 (x : Int) : Nat := (x % 2 ^ 16).toNat

/-- Conversion to `uint32_t`. -/
def toUInt32 (x : Nat) : Nat := x % 2 ^ 32

/-- Conversion to `uint64_t`. -/
def toUInt64 (x : Nat) : Nat := x % 2 ^ 64

/-! ## Kernel constants used by the driver (`errno`, `limits`, `mmc.h`) -/

def ENOENT : Int := 2
def EAGAIN : Int := 11
def EACCES : Int := 13
def EFAULT : Int := 14
def ENODEV : Int := 19
def EINVAL : Int := 22
def EPIPE : Int := 32
def ERANGE : Int := 34
def ENOSYS : Int := 38
def ETIMEDOUT : Int := 110

def INT_MAX : Int := 2 ^ 31 - 1

/-- Opcode `MMC_READ_MULTIPLE_BLOCK` of `linux/mmc/mmc.h`. -/
def MMC_READ_MULTIPLE_BLOCK : Nat := 18

/-- Opcode `MMC_WRITE_MULTIPLE_BLOCK` of `linux/mmc/mmc.h`. -/
def MMC_WRITE_MULTIPLE_BLOCK : Nat := 25

/-- Response type `MMC_RSP_R1` (present, CRC, opcode) of `linux/mmc/core.h`. -/
def MMC_RSP_R1 : Nat := 21

/-! ## `shdev.h` -/

def SHDEV_PAGES : Nat := 1
def SHDEV_MMC_PAGES : Nat := 1

def SIGNAL_READY : Nat := 0
def SIGNAL_MMC_MESSAGE : Nat := 1
def SIGNAL_ENET_MESSAGE : Nat := 2
def SIGNAL_SPI_MESSAGE : Nat := 3
def SIGNAL_INVALID : Nat := 32

/-- The macro `SHDEV_SIGNAL(b)`, that is `UINT32_C(1) << b`. -/
def SHDEV_SIGNAL (b : Nat) : Nat := toUInt32 (1 <<< b)

def SHDEV_DEVICE_PREFIX : Nat := 0xabed0000

def MMC_DEVICE : Nat := 0
def ENET_DEVICE : Nat := 1
def SPI_DEVICE : Nat := 2
abbrev NUM_DEVICES : Nat := 3

/-- The macro `SHDEV_DEVICE_TO_ID(b)`, that is `(uint32_t)b | SHDEV_DEVICE_PREFIX`. -/
def SHDEV_DEVICE_TO_ID (b : Nat) : Nat := toUInt32 b ||| SHDEV_DEVICE_PREFIX

/-- The macro `SHDEV_ID_TO_DEVICE(b)`, that is `(uint32_t)b & ~SHDEV_DEVICE_PREFIX`. -/
def SHDEV_ID_TO_DEVICE (b : Nat) : Nat :=
  toUInt32 b &&& (2 ^ 32 - 1 - SHDEV_DEVICE_PREFIX)

def SUSPEND_DEVICE : Nat := 0
def RESUME_DEVICE : Nat := 1
def SELECT_DEVICE : Nat := 2
def READ_DEVICE : Nat := 3
def WRITE_DEVICE : Nat := 4
def RPMB_DEVICE : Nat := 5
def INVALID_OPERATION : Nat := 0x10000

/-- The entry `shdev_mmc_entry_t` (`struct mmc_infos`): three `uint32_t` and
two `uint64_t` fields. -/
structure shdev_mmc_entry_t where
  devid : Nat
  hwpart : Nat
  lpart : Nat
  offset : Nat
  length : Nat
deriving DecidableEq, Repr

/-- The message `shdev_message_t`: four `uint16_t` fields. -/
structure shdev_message_t where
  operation : Nat
  device : Nat
  status : Nat
  value : Nat
deriving DecidableEq, Repr

/-- The descriptor `shdev_desc_t`. -/
structure shdev_desc_t where
  id : Nat
  ns_to_s : shdev_message_t
  s_to_ns : shdev_message_t
  entry_offset : Nat
  entry_size : Nat
  data_offset : Nat
  data_size : Nat
deriving DecidableEq, Repr

def SHDEV_MAGIC_INFOS : Nat := 0xabeef001

/-- The header `shdev_infos_t`; `descriptors` is the array of `NUM_DEVICES`
descriptors. -/
structure shdev_infos_t where
  magic : Nat
  num_devices : Nat
  descriptors : Fin NUM_DEVICES → shdev_desc_t

/-- The shared memory of the session: the header at offset 0, the MMC entry
block at `entry_offset` and the MMC data buffer (a byte array) at
`data_offset`. -/
structure Shm where
  infos : shdev_infos_t
  mmc_entry : shdev_mmc_entry_t
  data : Nat → Nat

/-! ## Build configuration -/

/-- The `CONFIG_*` options and the machine word the driver is built for. -/
structure Config where
  /-- Width of `long`, `size_t` and `ssize_t` in bits (32 or 64). -/
  BITS_PER_LONG : Nat
  PAGE_SIZE : Nat
  PROVENCORE_MMC_REMOTE_HOST : Bool
  PROVENCORE_MMC_USE_RPMB : Bool
  /-- The option `CONFIG_PROVENCORE_MMC_DEVID`, when defined. -/
  PROVENCORE_MMC_DEVID : Option Int
  /-- The path `CONFIG_PROVENCORE_MMC_DEVICE`. -/
  PROVENCORE_MMC_DEVICE : List Char
  MMC_BLOCK_MINORS : Int
  PROVENCORE_MMC_RPMB_BLKCNT : Option Nat
  PROVENCORE_MMC_RPMB_BLKSIZE : Option Nat
  PROVENCORE_SHARED_MMC : Bool
  PROVENCORE_SHARED_ENET : Bool
  PROVENCORE_SHARED_SPI : Bool
  /-- The value `sizeof(shdev_mmc_entry_t)`: 32 where `uint64_t` is aligned on
  8 bytes, 28 where it is aligned on 4. -/
  SIZEOF_MMC_ENTRY : Nat
  /-- The flag `EVENT_PENDING_SIGNAL` of `ree_session.h`. -/
  EVENT_PENDING_SIGNAL : Nat
  /-- The flag `EVENT_PENDING_REQUEST` of `ree_session.h`. -/
  EVENT_PENDING_REQUEST : Nat

/-- Conversion to `unsigned long` / `size_t`. -/
def toULong (cfg : Config) (x : Nat) : Nat := x % 2 ^ cfg.BITS_PER_LONG

/-! ## Kernel interface: events and oracles -/

/-- Device nodes opened with `filp_open`. -/
inductive DevNode
  | PROVENCORE_MMC_DEVICE
  | PROVENCORE_MMC_RPMB_DEVICE
deriving DecidableEq, Repr

/-- Block-device control requests issued by the driver. -/
inductive BlkCmd
  | BLKGETSIZE
  | BLKPBSZGET
  | PROVENCORE_MMC_IOCTL_SUSPEND
  | PROVENCORE_MMC_IOCTL_RESUME
deriving DecidableEq, Repr

/-- Target of the `data_ptr` of an MMC command: nothing (zeroed), a frame in
the shared memory at the given offset, or a frame on the stack with the given
bytes. -/
inductive DataPtr
  | null
  | shm (offset : Nat)
  | stack (bytes : List Nat)
deriving DecidableEq, Repr

/-- The fields of `struct mmc_ioc_cmd` that the driver sets or clears. -/
structure mmc_ioc_cmd where
  write_flag : Nat
  is_acmd : Nat
  opcode : Nat
  arg : Nat
  flags : Nat
  blksz : Nat
  blocks : Nat
  postsleep_min_us : Nat
  postsleep_max_us : Nat
  data_timeout_ns : Nat
  cmd_timeout_ms : Nat
  data_ptr : DataPtr
deriving DecidableEq, Repr

/-- The `struct mmc_ioc_multi_cmd` with its `RPMB_MULTI_CMD_MAX_CMDS` slots. -/
structure mmc_ioc_multi_cmd where
  num_of_cmds : Nat
  cmds : List mmc_ioc_cmd
deriving DecidableEq, Repr

/-- Calls into the kernel, in the order in which the driver makes them. -/
inductive Event
  | blkdev_get_by_dev (minor : Int)
  | blkdev_ioctl (cmd : BlkCmd)
  | mmcblk_pm_runtime_disable
  | mmcblk_pm_runtime_enable
  | filp_open (node : DevNode)
  | filp_close (node : DevNode)
  | kernel_read (pos : Int) (length : Nat)
  | kernel_write (pos : Int) (length : Nat)
  | unlocked_ioctl (cmd : BlkCmd)
  | kmalloc
  | kfree
  | mmc_ioc_multi_cmd (pcmds : mmc_ioc_multi_cmd)
  | enetdev_lookup
  | ndo_do_ioctl (lock : Bool)
  | spidev_lookup
  | spi_master_suspend
  | spi_master_resume
  | pnc_session_send_signal (signals : Nat)
  | pnc_session_open
  | pnc_session_alloc (size : Nat)
  | pnc_session_get_version
  | pnc_session_config_by_name
  | msleep (msecs : Nat)
  | pnc_session_get_mem
  | pnc_session_close
  | pnc_session_get_signal
  | pnc_session_wait_event (mask : Nat)
  | schedule_work (device : Nat)
  | kthread_should_stop
  | kthread_stop
  | flush_work (device : Nat)
deriving DecidableEq, Repr

/-- Answers of the kernel.  Every oracle is given the trace of the calls made
before the one it answers. -/
structure Env where
  /-- Whether `blkdev_get_by_dev` yields a block device with a disk. -/
  blkdev_get_by_dev : List Event → Int → Bool
  /-- Return value of `blkdev_ioctl` and the value stored through its argument. -/
  blkdev_ioctl : List Event → BlkCmd → Int × Nat
  /-- Result of `filp_open`: `none` for a file, `some e` for `ERR_PTR(e)`. -/
  filp_open : List Event → DevNode → Option Int
  /-- Whether the opened file has `f_op` and `f_op->unlocked_ioctl`. -/
  has_unlocked_ioctl : List Event → Bool
  /-- Return value of `f_op->unlocked_ioctl` for a block request and the
  value stored through its argument. -/
  unlocked_ioctl : List Event → BlkCmd → Int × Nat
  /-- Return value of `kernel_read` (an `ssize_t`). -/
  kernel_read : List Event → Int → Nat → Int
  /-- Bytes that `kernel_read` delivers into the buffer. -/
  read_data : List Event → Int → Nat → Nat
  /-- Return value of `kernel_write` (an `ssize_t`). -/
  kernel_write : List Event → Int → Nat → Int
  /-- Whether `kmalloc` returns memory. -/
  kmalloc : List Event → Bool
  /-- Return value of the `MMC_IOC_MULTI_CMD` request. -/
  ioc_multi_cmd : List Event → mmc_ioc_multi_cmd → Int
  /-- Frame that the `MMC_IOC_MULTI_CMD` request leaves in the caller's buffer. -/
  rpmb_response : List Event → mmc_ioc_multi_cmd → (Nat → Nat) → Nat → Nat
  /-- Whether the network device is found by `enetdev_get`. -/
  enetdev_found : List Event → Bool
  /-- Return value of `ndo_do_ioctl`. -/
  ndo_do_ioctl : List Event → Bool → Int
  /-- Whether the SPI device is found by `spidev_get`. -/
  spidev_found : List Event → Bool
  /-- Return value of `spi_master_suspend`. -/
  spi_master_suspend : List Event → Int
  /-- Return value of `spi_master_resume`. -/
  spi_master_resume : List Event → Int
  /-- Return value of `pnc_session_send_signal`. -/
  pnc_session_send_signal : List Event → Nat → Int
  /-- Return value of `pnc_session_open`. -/
  pnc_session_open : List Event → Int
  /-- Return value of `pnc_session_alloc` for the given size. -/
  pnc_session_alloc : List Event → Nat → Int
  /-- Return value of `pnc_session_get_version` and the version it stores. -/
  pnc_session_get_version : List Event → Int × Nat
  /-- Return value of `pnc_session_config_by_name`. -/
  pnc_session_config_by_name : List Event → Int
  /-- Return value of `pnc_session_get_mem` and the size it stores. -/
  pnc_session_get_mem : List Event → Int × Nat
  /-- Return value of `pnc_session_get_signal` and the mask it stores. -/
  pnc_session_get_signal : List Event → Int × Nat
  /-- Return value of `pnc_session_wait_event` and the events it stores. -/
  pnc_session_wait_event : List Event → Int × Nat
  /-- Answer of `kthread_should_stop`. -/
  kthread_should_stop : List Event → Bool

/-- The static variables of the driver. -/
structure Statics where
  _mmc_block_minor : Int
  _shdev_mmc_bdev : Option Int
  _shared_enet_device : Bool
  _shared_spi_device : Bool
  /-- Whether `_shdev_session` is not null. -/
  _shdev_session : Bool
deriving DecidableEq, Repr

/-- State on which the driver operates. -/
structure World where
  shm : Shm
  statics : Statics
  trace : List Event

/-- Record a call into the kernel. -/
def World.emit (w : World) (e : Event) : World :=
  { w with trace := w.trace ++ [e] }

/-! ## `mmcblk.c`: lookup of the block device -/

/-- The digit loop of the kernel's `_parse_integer` in base 10: value of the
leading decimal digits, their number, and the rest of the string. -/
def _parse_integer : List Char → Nat → Nat → Nat × Nat × List Char
  | [], acc, n => (acc, n, [])
  | c :: cs, acc, n =>
    if c.isDigit then _parse_integer cs (acc * 10 + (c.toNat - 48)) (n + 1)
    else (acc, n, c :: cs)

/-- The kernel's `_kstrtoull` in base 10: at least one digit, an optional
final newline, nothing else, and a value that fits 64 bits. -/
def _kstrtoull (s : List Char) : Except Int Nat :=
  match _parse_integer s 0 0 with
  | (v, n, rest) =>
    if 2 ^ 64 ≤ v then .error (-ERANGE)
    else if n = 0 then .error (-EINVAL)
    else
      let rest1 := if rest.head? = some (Char.ofNat 10) then rest.tail else rest
      if rest1 ≠ [] then .error (-EINVAL) else .ok v

/-- The kernel's `kstrtoll` in base 10. -/
def kstrtoll (s : List Char) : Except Int Int :=
  if s.head? = some '-' then
    match _kstrtoull s.tail with
    | .error e => .error e
    | .ok v => if 2 ^ 63 < v then .error (-ERANGE) else .ok (-(v : Int))
  else
    match _kstrtoull (if s.head? = some '+' then s.tail else s) with
    | .error e => .error e
    | .ok v => if 2 ^ 63 ≤ v then .error (-ERANGE) else .ok (v : Int)

/-- The kernel's `kstrtol(s, 10, &res)`. -/
def kstrtol (cfg : Config) (s : List Char) : Except Int Int :=
  match kstrtoll s with
  | .error e => .error e
  | .ok v =>
    if v < 2 ^ (cfg.BITS_PER_LONG - 1) ∧ -(2 ^ (cfg.BITS_PER_LONG - 1)) ≤ v then .ok v
    else .error (-ERANGE)

/-- The string at `p` in `mmcblk_get`: `p` starts on the last character of
the path and moves back while the character before it is a digit. -/
def devname_suffix (devname : List Char) : List Char :=
  match devname.reverse with
  | [] => []
  | c :: before => (before.takeWhile Char.isDigit).reverse ++ [c]

/-- The minor number that `mmcblk_get` computes when `_mmc_block_minor` is
still `-1`. -/
def mmc_block_minor (cfg : Config) : Except Int Int :=
  match cfg.PROVENCORE_MMC_DEVID with
  | some devid => .ok (toInt32 (devid * cfg.MMC_BLOCK_MINORS))
  | none =>
    match kstrtol cfg (devname_suffix cfg.PROVENCORE_MMC_DEVICE) with
    | .error _ => .error (-EINVAL)
    | .ok devid =>
      if devid < 0 ∨ devid > Int.tdiv INT_MAX cfg.MMC_BLOCK_MINORS then .error (-EINVAL)
      else .ok (toInt32 (toInt32 devid * cfg.MMC_BLOCK_MINORS))

/-- The function `mmcblk_get`: the cached block device, or the one found for
the minor number; `Except.error e` stands for `ERR_PTR(e)`. -/
def mmcblk_get (cfg : Config) (env : Env) (w : World) : Except Int Int × World :=
  match w.statics._shdev_mmc_bdev with
  | some bdev => (.ok bdev, w)
  | none =>
    let minor : Except Int Int :=
      if w.statics._mmc_block_minor = -1 then mmc_block_minor cfg
      else .ok w.statics._mmc_block_minor
    match minor with
    | .error e => (.error e, w)
    | .ok m =>
      let w1 : World := { w with statics := { w.statics with _mmc_block_minor := m } }
      let found := env.blkdev_get_by_dev w1.trace m
      let w2 := w1.emit (.blkdev_get_by_dev m)
      if found then
        (.ok m, { w2 with statics := { w2.statics with _shdev_mmc_bdev := some m } })
      else (.error (-EINVAL), w2)

/-- The function `mmcblk_suspend`. -/
def mmcblk_suspend (cfg : Config) (env : Env) (w : World) : Int × World :=
  match mmcblk_get cfg env w with
  | (.error _, w1) => (-ENODEV, w1)
  | (.ok _, w1) =>
    let result := (env.blkdev_ioctl w1.trace .PROVENCORE_MMC_IOCTL_SUSPEND).1
    let w2 := w1.emit (.blkdev_ioctl .PROVENCORE_MMC_IOCTL_SUSPEND)
    (result, w2.emit .mmcblk_pm_runtime_disable)

/-- The function `mmcblk_resume`. -/
def mmcblk_resume (cfg : Config) (env : Env) (w : World) : Int × World :=
  match mmcblk_get cfg env w with
  | (.error _, w1) => (-ENODEV, w1)
  | (.ok _, w1) =>
    let result := (env.blkdev_ioctl w1.trace .PROVENCORE_MMC_IOCTL_RESUME).1
    let w2 := w1.emit (.blkdev_ioctl .PROVENCORE_MMC_IOCTL_RESUME)
    (result, w2.emit .mmcblk_pm_runtime_enable)

/-! ## `mmcblk.c`: the RPMB relay -/

def MMC_PART_USER : Nat := 0
def MMC_PART_RPMB : Nat := 3
def RPMB_FRAME_SIZE : Nat := 512
def RPMB_REQ_COUNTER : Nat := 0x0002
def RPMB_REQ_WRITE : Nat := 0x0003
def RPMB_REQ_READ : Nat := 0x0004
def RPMB_REQ_STATUS : Nat := 0x0005
def RPMB_WRITE_FLAG_RELIABLE : Nat := 1 <<< 31
def RPMB_MULTI_CMD_MAX_CMDS : Nat := 3
def RPMB_REQ_READ_COUNTER_CMDS : Nat := 2
def RPMB_REQ_WRITE_CMDS : Nat := 3

/-- A command of the buffer after `memset(pcmds, 0, ...)`. -/
def mmc_ioc_cmd.zero : mmc_ioc_cmd :=
  { write_flag := 0, is_acmd := 0, opcode := 0, arg := 0, flags := 0, blksz := 0,
    blocks := 0, postsleep_min_us := 0, postsleep_max_us := 0, data_timeout_ns := 0,
    cmd_timeout_ms := 0, data_ptr := .null }

/-- The macro `INIT_MMC_IOC_CMD(cmd, opc, wflag, ptr)`. -/
def INIT_MMC_IOC_CMD (cmd : mmc_ioc_cmd) (opc wflag : Nat) (ptr : DataPtr) : mmc_ioc_cmd :=
  { cmd with flags := MMC_RSP_R1, blksz := RPMB_FRAME_SIZE, blocks := 1, opcode := opc,
             write_flag := wflag, data_ptr := ptr }

/-- The value `be16_to_cpu(frame->request)`: bytes 510 and 511 of the frame,
most significant first. -/
def frame_request (frame : Nat → Nat) : Nat :=
  (frame 510 % 256) * 256 + frame 511 % 256

/-- The local `frame_status` of the write case: all zero, with
`cpu_to_be16(RPMB_REQ_STATUS)` in its last two bytes. -/
def frame_status : List Nat :=
  List.replicate 510 0 ++ [RPMB_REQ_STATUS / 256 % 256, RPMB_REQ_STATUS % 256]

/-- The call `unlocked_ioctl(filp, MMC_IOC_MULTI_CMD, pcmds)` followed by
`kfree(pcmds)` and `filp_close(filp, 0)`. -/
def rpmb_multi_cmd (env : Env) (pcmds : mmc_ioc_multi_cmd) (w : World) : Int × World :=
  let result := toInt32 (env.ioc_multi_cmd w.trace pcmds)
  let resp := env.rpmb_response w.trace pcmds w.shm.data
  let w1 : World :=
    { w with shm := { w.shm with
        data := fun i => if i < RPMB_FRAME_SIZE then resp i else w.shm.data i } }
  let w2 := w1.emit (.mmc_ioc_multi_cmd pcmds)
  (result, (w2.emit .kfree).emit (.filp_close .PROVENCORE_MMC_RPMB_DEVICE))

/-- The function `mmcblk_remote_host_rpmb`. -/
def mmcblk_remote_host_rpmb (cfg : Config) (env : Env) (desc : shdev_desc_t)
    (w : World) : Int × World :=
  let result : Int := -EACCES
  let filp := env.filp_open w.trace .PROVENCORE_MMC_RPMB_DEVICE
  let w1 := w.emit (.filp_open .PROVENCORE_MMC_RPMB_DEVICE)
  match filp with
  | some _ => (result, w1)
  | none =>
    if !env.has_unlocked_ioctl w1.trace then
      (result, w1.emit (.filp_close .PROVENCORE_MMC_RPMB_DEVICE))
    else if desc.s_to_ns.operation = SELECT_DEVICE then
      let cnt : Int × Nat × World :=
        match cfg.PROVENCORE_MMC_RPMB_BLKCNT with
        | some c => (0, toULong cfg c, w1)
        | none =>
          let r := env.unlocked_ioctl w1.trace .BLKGETSIZE
          (toInt32 r.1, toULong cfg r.2, w1.emit (.unlocked_ioctl .BLKGETSIZE))
      match cnt with
      | (result1, blkcnt, w2) =>
        if result1 < 0 then (result1, w2.emit (.filp_close .PROVENCORE_MMC_RPMB_DEVICE))
        else
          let sz : Int × Nat × World :=
            match cfg.PROVENCORE_MMC_RPMB_BLKSIZE with
            | some b => (0, toULong cfg b, w2)
            | none =>
              let r := env.unlocked_ioctl w2.trace .BLKPBSZGET
              (toInt32 r.1, toULong cfg r.2, w2.emit (.unlocked_ioctl .BLKPBSZGET))
          match sz with
          | (result2, blksize, w3) =>
            if result2 < 0 then
              (result2, w3.emit (.filp_close .PROVENCORE_MMC_RPMB_DEVICE))
            else
              let w4 : World :=
                { w3 with shm := { w3.shm with mmc_entry :=
                    { w3.shm.mmc_entry with
                        offset := blksize,
                        length := toULong cfg (blksize * blkcnt) } } }
              (result2, w4.emit (.filp_close .PROVENCORE_MMC_RPMB_DEVICE))
    else
      let allocated := env.kmalloc w1.trace
      let w2 := w1.emit .kmalloc
      if !allocated then (result, w2.emit (.filp_close .PROVENCORE_MMC_RPMB_DEVICE))
      else
        let frame := DataPtr.shm desc.data_offset
        let cmd0 := INIT_MMC_IOC_CMD mmc_ioc_cmd.zero MMC_WRITE_MULTIPLE_BLOCK 1 frame
        let request := frame_request w2.shm.data
        if request = RPMB_REQ_COUNTER ∨ request = RPMB_REQ_READ then
          let cmd1 := INIT_MMC_IOC_CMD mmc_ioc_cmd.zero MMC_READ_MULTIPLE_BLOCK 0 frame
          rpmb_multi_cmd env
            { num_of_cmds := RPMB_REQ_READ_COUNTER_CMDS,
              cmds := [cmd0, cmd1, mmc_ioc_cmd.zero] } w2
        else if request = RPMB_REQ_WRITE then
          let cmd0w := { cmd0 with write_flag := 1 ||| RPMB_WRITE_FLAG_RELIABLE }
          let cmd1 := INIT_MMC_IOC_CMD mmc_ioc_cmd.zero MMC_WRITE_MULTIPLE_BLOCK 1
            (.stack frame_status)
          let cmd2 := INIT_MMC_IOC_CMD mmc_ioc_cmd.zero MMC_READ_MULTIPLE_BLOCK 0 frame
          rpmb_multi_cmd env
            { num_of_cmds := RPMB_REQ_WRITE_CMDS, cmds := [cmd0w, cmd1, cmd2] } w2
        else
          (result, (w2.emit .kfree).emit (.filp_close .PROVENCORE_MMC_RPMB_DEVICE))

/-! ## `mmcblk.c`: the remote-storage relay -/

/-- The read and write cases of `mmcblk_remote_host`, once the hardware
partition has been accepted. -/
def mmcblk_remote_host_rw (cfg : Config) (env : Env) (desc : shdev_desc_t)
    (w : World) : Int × World :=
  let write : Bool := desc.s_to_ns.operation = WRITE_DEVICE
  if toUInt32 w.shm.mmc_entry.length > desc.data_size then (-EINVAL, w)
  else
    let filp := env.filp_open w.trace .PROVENCORE_MMC_DEVICE
    let w1 := w.emit (.filp_open .PROVENCORE_MMC_DEVICE)
    match filp with
    | some e => (toInt32 e, w1)
    | none =>
      let pos : Int := toInt64 w1.shm.mmc_entry.offset
      let length : Nat := toULong cfg w1.shm.mmc_entry.length
      let done : Int × World :=
        if write then
          (env.kernel_write w1.trace pos length, w1.emit (.kernel_write pos length))
        else
          let n := env.kernel_read w1.trace pos length
          let bytes := env.read_data w1.trace pos
          let w2 : World :=
            { w1 with shm := { w1.shm with
                data := fun i => if (i : Int) < n then bytes i else w1.shm.data i } }
          (n, w2.emit (.kernel_read pos length))
      match done with
      | (transferred_bytes, w3) =>
        let ret : Int :=
          if transferred_bytes > 0 ∧ toULong cfg transferred_bytes.toNat = length then 0
          else if transferred_bytes ≠ 0 then toInt32 transferred_bytes
          else -EACCES
        (ret, w3.emit (.filp_close .PROVENCORE_MMC_DEVICE))

/-- The select case of `mmcblk_remote_host`. -/
def mmcblk_remote_host_select (cfg : Config) (env : Env) (w : World) : Int × World :=
  match mmcblk_get cfg env w with
  | (.error _, w1) => (-EACCES, w1)
  | (.ok _, w1) =>
    let r1 := env.blkdev_ioctl w1.trace .BLKGETSIZE
    let w2 := w1.emit (.blkdev_ioctl .BLKGETSIZE)
    if r1.1 ≠ 0 then (r1.1, w2)
    else
      let blkcnt := toULong cfg r1.2
      let r2 := env.blkdev_ioctl w2.trace .BLKPBSZGET
      let w3 := w2.emit (.blkdev_ioctl .BLKPBSZGET)
      if r2.1 ≠ 0 then (r2.1, w3)
      else
        let blksize := toULong cfg r2.2
        (r2.1,
          { w3 with shm := { w3.shm with mmc_entry :=
              { w3.shm.mmc_entry with
                  offset := blksize,
                  length := toUInt64 (blksize * toUInt64 blkcnt) } } })

/-- The function `mmcblk_remote_host`. -/
def mmcblk_remote_host (cfg : Config) (env : Env) (desc : shdev_desc_t)
    (w : World) : Int × World :=
  if desc.id ≠ SHDEV_DEVICE_TO_ID MMC_DEVICE then (-EINVAL, w)
  else if cfg.PROVENCORE_MMC_USE_RPMB ∧ w.shm.mmc_entry.hwpart = MMC_PART_RPMB then
    mmcblk_remote_host_rpmb cfg env desc w
  else if w.shm.mmc_entry.hwpart ≠ MMC_PART_USER then (-EACCES, w)
  else if desc.s_to_ns.operation = SELECT_DEVICE then mmcblk_remote_host_select cfg env w
  else if desc.s_to_ns.operation = READ_DEVICE ∨ desc.s_to_ns.operation = WRITE_DEVICE then
    mmcblk_remote_host_rw cfg env desc w
  else (-EINVAL, w)

/-! ## `enetdev.c` and `spidev.c` -/

/-- The function `enetdev_get`: the cached device, or the result of the
platform lookup. -/
def enetdev_get (env : Env) (w : World) : Bool × World :=
  if w.statics._shared_enet_device then (true, w)
  else
    let found := env.enetdev_found w.trace
    let w1 := w.emit .enetdev_lookup
    if found then
      (true, { w1 with statics := { w1.statics with _shared_enet_device := true } })
    else (false, w1)

/-- The function `enetdev_suspend`. -/
def enetdev_suspend (env : Env) (w : World) : Int × World :=
  match enetdev_get env w with
  | (false, w1) => (-ENODEV, w1)
  | (true, w1) => (env.ndo_do_ioctl w1.trace true, w1.emit (.ndo_do_ioctl true))

/-- The function `enetdev_resume`. -/
def enetdev_resume (env : Env) (w : World) : Int × World :=
  match enetdev_get env w with
  | (false, w1) => (-ENODEV, w1)
  | (true, w1) => (env.ndo_do_ioctl w1.trace false, w1.emit (.ndo_do_ioctl false))

/-- The function `spidev_get`. -/
def spidev_get (env : Env) (w : World) : Bool × World :=
  if w.statics._shared_spi_device then (true, w)
  else
    let found := env.spidev_found w.trace
    let w1 := w.emit .spidev_lookup
    if found then
      (true, { w1 with statics := { w1.statics with _shared_spi_device := true } })
    else (false, w1)

/-- The function `spidev_suspend`. -/
def spidev_suspend (env : Env) (w : World) : Int × World :=
  match spidev_get env w with
  | (false, w1) => (-ENODEV, w1)
  | (true, w1) => (env.spi_master_suspend w1.trace, w1.emit .spi_master_suspend)

/-- The function `spidev_resume`. -/
def spidev_resume (env : Env) (w : World) : Int × World :=
  match spidev_get env w with
  | (false, w1) => (-ENODEV, w1)
  | (true, w1) => (env.spi_master_resume w1.trace, w1.emit .spi_master_resume)

/-! ## `internal.h` and `shdev.c`: operation tables and the work item -/

/-- The table `shdev_ops_t`; `none` is a null function pointer. -/
structure shdev_ops_t where
  suspend : Option (Env → World → Int × World)
  resume : Option (Env → World → Int × World)
  select : Option (Env → shdev_desc_t → World → Int × World)
  read : Option (Env → shdev_desc_t → World → Int × World)
  write : Option (Env → shdev_desc_t → World → Int × World)
  rpmb : Option (Env → shdev_desc_t → World → Int × World)

/-- The table `mmcblk_ops`. -/
def mmcblk_ops (cfg : Config) : shdev_ops_t :=
  { suspend := some (mmcblk_suspend cfg),
    resume := some (mmcblk_resume cfg),
    select := if cfg.PROVENCORE_MMC_REMOTE_HOST then some (mmcblk_remote_host cfg) else none,
    read := if cfg.PROVENCORE_MMC_REMOTE_HOST then some (mmcblk_remote_host cfg) else none,
    write := if cfg.PROVENCORE_MMC_REMOTE_HOST then some (mmcblk_remote_host cfg) else none,
    rpmb :=
      if cfg.PROVENCORE_MMC_REMOTE_HOST ∧ cfg.PROVENCORE_MMC_USE_RPMB then
        some (mmcblk_remote_host cfg)
      else none }

/-- The table `enetdev_ops`. -/
def enetdev_ops : shdev_ops_t :=
  { suspend := some enetdev_suspend, resume := some enetdev_resume,
    select := none, read := none, write := none, rpmb := none }

/-- The table `spidev_ops`. -/
def spidev_ops : shdev_ops_t :=
  { suspend := some spidev_suspend, resume := some spidev_resume,
    select := none, read := none, write := none, rpmb := none }

/-- The internal device descriptor `shdev_t` (without its work item). -/
structure shdev_t where
  id : Nat
  signal_msg : Nat
  ops : shdev_ops_t

/-- The table `_shdev_devices` as `shdev_init` fills it, the three devices
being compiled in. -/
def _shdev_devices (cfg : Config) (i : Fin NUM_DEVICES) : shdev_t :=
  match i with
  | ⟨0, _⟩ =>
    { id := SHDEV_DEVICE_TO_ID MMC_DEVICE, signal_msg := SHDEV_SIGNAL SIGNAL_MMC_MESSAGE,
      ops := mmcblk_ops cfg }
  | ⟨1, _⟩ =>
    { id := SHDEV_DEVICE_TO_ID ENET_DEVICE, signal_msg := SHDEV_SIGNAL SIGNAL_ENET_MESSAGE,
      ops := enetdev_ops }
  | _ =>
    { id := SHDEV_DEVICE_TO_ID SPI_DEVICE, signal_msg := SHDEV_SIGNAL SIGNAL_SPI_MESSAGE,
      ops := spidev_ops }

/-- Call through a function pointer of the table that takes no argument; a
null pointer leaves `ret` at 0. -/
def call_op0 (f : Option (Env → World → Int × World)) (env : Env) (w : World) :
    Int × World :=
  match f with
  | some op => op env w
  | none => (0, w)

/-- Call through a function pointer of the table that takes the descriptor. -/
def call_op1 (f : Option (Env → shdev_desc_t → World → Int × World)) (env : Env)
    (desc : shdev_desc_t) (w : World) : Int × World :=
  match f with
  | some op => op env desc w
  | none => (0, w)

/-- The `switch (desc.s_to_ns.operation)` of `device_work_func`: the value
of `ret` after it and the state it leaves. -/
def device_work_switch (cfg : Config) (env : Env) (dev : shdev_t) (desc : shdev_desc_t)
    (w : World) : Int × World :=
  if desc.s_to_ns.operation = SUSPEND_DEVICE then call_op0 dev.ops.suspend env w
  else if desc.s_to_ns.operation = RESUME_DEVICE then call_op0 dev.ops.resume env w
  else if desc.s_to_ns.operation = SELECT_DEVICE then call_op1 dev.ops.select env desc w
  else if desc.s_to_ns.operation = READ_DEVICE then call_op1 dev.ops.read env desc w
  else if desc.s_to_ns.operation = WRITE_DEVICE then call_op1 dev.ops.write env desc w
  else if cfg.PROVENCORE_MMC_USE_RPMB ∧ desc.s_to_ns.operation = RPMB_DEVICE then
    call_op1 dev.ops.rpmb env desc w
  else (-ENOSYS, w)

/-- The value stored in `mptr->value`: `(ret < 0) ? -ret : ret` converted to
`uint16_t`. -/
def status_value (ret : Int) : Nat :=
  toUInt16 (if ret < 0 then toInt32 (-ret) else ret)

/-- The function `device_work_func` for the work item of `dev`. -/
def device_work_func (cfg : Config) (env : Env) (dev : shdev_t) (w : World) : World :=
  let index := SHDEV_ID_TO_DEVICE dev.id
  if h : index < NUM_DEVICES then
    let desc := w.shm.infos.descriptors ⟨index, h⟩
    if desc.id ≠ dev.id then w
    else
      match device_work_switch cfg env dev desc w with
      | (ret, w1) =>
        let mptr : shdev_message_t :=
          { desc.s_to_ns with status := 1, value := status_value ret }
        let descriptors := Function.update w1.shm.infos.descriptors ⟨index, h⟩
          { w1.shm.infos.descriptors ⟨index, h⟩ with ns_to_s := mptr }
        let w2 : World :=
          { w1 with shm := { w1.shm with infos :=
              { w1.shm.infos with descriptors := descriptors } } }
        w2.emit (.pnc_session_send_signal dev.signal_msg)
  else w

/-! ## `shdev.c`: reception of signals -/

/-- The call `schedule_work(&_shdev_devices[device].work)`; its result only
selects a warning. -/
def schedule_work (device : Nat) (w : World) : World :=
  w.emit (.schedule_work device)

/-- The function `handle_signal`. -/
def handle_signal (cfg : Config) (env : Env) (w : World) : World :=
  let r := env.pnc_session_get_signal w.trace
  let w0 := w.emit .pnc_session_get_signal
  if r.1 ≠ 0 then w0
  else
    let signals := toUInt32 r.2
    let w1 :=
      if cfg.PROVENCORE_SHARED_MMC ∧ signals &&& SHDEV_SIGNAL SIGNAL_MMC_MESSAGE ≠ 0 then
        schedule_work MMC_DEVICE w0
      else w0
    let w2 :=
      if cfg.PROVENCORE_SHARED_ENET ∧ signals &&& SHDEV_SIGNAL SIGNAL_ENET_MESSAGE ≠ 0 then
        schedule_work ENET_DEVICE w1
      else w1
    if cfg.PROVENCORE_SHARED_SPI ∧ signals &&& SHDEV_SIGNAL SIGNAL_SPI_MESSAGE ≠ 0 then
      schedule_work SPI_DEVICE w2
    else w2

/-! ## `shdev.c`: configuration of the session -/

/-- The value `sizeof(shdev_message_t)`: four `uint16_t`. -/
def sizeof_shdev_message_t : Nat := 8

/-- The value `sizeof(shdev_desc_t)`: five `uint32_t` and two messages. -/
def sizeof_shdev_desc_t : Nat := 4 + 2 * sizeof_shdev_message_t + 4 * 4

/-- The value `sizeof(shdev_infos_t)`: two `uint32_t` and the descriptors. -/
def sizeof_shdev_infos_t : Nat := 4 + 4 + NUM_DEVICES * sizeof_shdev_desc_t

/-- Assignment through `desc_ptr = &_shdev_infos_ptr->descriptors[i]`. -/
def set_descriptor (w : World) (i : Fin NUM_DEVICES) (f : shdev_desc_t → shdev_desc_t) :
    World :=
  { w with shm := { w.shm with infos := { w.shm.infos with
      descriptors := Function.update w.shm.infos.descriptors i
        (f (w.shm.infos.descriptors i)) } } }

/-- The local variables `infos_offset` and `data_offset` of `configure`
(both `uint32_t`). -/
structure Offsets where
  infos_offset : Nat
  data_offset : Nat
deriving DecidableEq, Repr

/-- The part of `configure` that fills the shared memory, from the setup of
`_shdev_infos_ptr` to the SPI descriptor: the offsets reached and the state. -/
def configure_layout (cfg : Config) (w : World) : Offsets × World :=
  let w1 : World :=
    { w with shm := { w.shm with infos := { w.shm.infos with
        magic := SHDEV_MAGIC_INFOS, num_devices := NUM_DEVICES } } }
  let data_offset := toUInt32 (toULong cfg (SHDEV_PAGES * cfg.PAGE_SIZE))
  let infos_offset := toUInt32 sizeof_shdev_infos_t
  let mmc : Offsets × World :=
    if cfg.PROVENCORE_SHARED_MMC then
      let w2 := set_descriptor w1 ⟨MMC_DEVICE, by decide⟩
        fun d => { d with id := SHDEV_DEVICE_TO_ID MMC_DEVICE }
      if cfg.PROVENCORE_MMC_REMOTE_HOST then
        let entry_size := toUInt32 cfg.SIZEOF_MMC_ENTRY
        let data_size := toUInt32 (toULong cfg (SHDEV_MMC_PAGES * cfg.PAGE_SIZE))
        let w3 := set_descriptor w2 ⟨MMC_DEVICE, by decide⟩
          fun d => { d with entry_offset := infos_offset, entry_size := entry_size,
                            data_offset := data_offset, data_size := data_size }
        ({ infos_offset := toUInt32 (infos_offset + entry_size),
           data_offset := toUInt32 (data_offset + data_size) }, w3)
      else ({ infos_offset := infos_offset, data_offset := data_offset }, w2)
    else ({ infos_offset := infos_offset, data_offset := data_offset }, w1)
  let w4 :=
    if cfg.PROVENCORE_SHARED_ENET then
      set_descriptor mmc.2 ⟨ENET_DEVICE, by decide⟩
        fun d => { d with id := SHDEV_DEVICE_TO_ID ENET_DEVICE }
    else mmc.2
  let w5 :=
    if cfg.PROVENCORE_SHARED_SPI then
      set_descriptor w4 ⟨SPI_DEVICE, by decide⟩
        fun d => { d with id := SHDEV_DEVICE_TO_ID SPI_DEVICE }
    else w4
  (mmc.1, w5)

/-- The label `config_err` of `configure`: close the session, return `ret`. -/
def config_err (ret : Int) (w : World) : Int × World :=
  (ret, w.emit .pnc_session_close)

/-- The loop at the label `session_config` of `configure`: bind the session
to the service, sleeping 100 ms and binding again while the result is
`-EAGAIN` or `-ENOENT`; at most `fuel` bindings. -/
def session_config (env : Env) : Nat → World → Option (Int × World)
  | 0, _ => none
  | fuel + 1, w =>
    let ret := env.pnc_session_config_by_name w.trace
    let w1 := w.emit .pnc_session_config_by_name
    if ret = -EAGAIN ∨ ret = -ENOENT then session_config env fuel (w1.emit (.msleep 100))
    else some (ret, w1)

/-- The part of `configure` that follows the binding of the session, `ret`
being the result of the binding. -/
def configure_bound (cfg : Config) (env : Env) (ret : Int) (w : World) : Int × World :=
  if ret ≠ 0 then config_err ret w
  else
    let mem := env.pnc_session_get_mem w.trace
    let w1 := w.emit .pnc_session_get_mem
    if mem.1 ≠ 0 then config_err mem.1 w1
    else
      let shm_size := toULong cfg mem.2
      match configure_layout cfg w1 with
      | (offsets, w2) =>
        if offsets.infos_offset > toULong cfg (SHDEV_PAGES * cfg.PAGE_SIZE) then
          config_err (-EFAULT) w2
        else if offsets.data_offset > shm_size then config_err (-EFAULT) w2
        else
          let sent := env.pnc_session_send_signal w2.trace (SHDEV_SIGNAL SIGNAL_READY)
          let w3 := w2.emit (.pnc_session_send_signal (SHDEV_SIGNAL SIGNAL_READY))
          if sent ≠ 0 then config_err sent w3 else (0, w3)

/-- The size passed to `pnc_session_alloc`: `session_pages*PAGE_SIZE`. -/
def session_size (cfg : Config) : Nat :=
  toULong cfg
    (toUInt32 (SHDEV_PAGES + if cfg.PROVENCORE_MMC_REMOTE_HOST then SHDEV_MMC_PAGES else 0)
      * cfg.PAGE_SIZE)

/-- The state of `configure` once `pnc_session_open` has succeeded. -/
def session_opened (w : World) : World :=
  { w.emit .pnc_session_open with
    statics := { w.statics with _shdev_session := true } }

/-- The state of `configure` once `pnc_session_alloc` has been called. -/
def session_allocated (cfg : Config) (w : World) : World :=
  (session_opened w).emit (.pnc_session_alloc (session_size cfg))

/-- The state of `configure` once `pnc_session_get_version` has been called. -/
def session_versioned (cfg : Config) (w : World) : World :=
  (session_allocated cfg w).emit .pnc_session_get_version

/-- The function `configure`; `fuel` bounds the bindings of the session. -/
def configure (cfg : Config) (env : Env) (fuel : Nat) (w : World) : Option (Int × World) :=
  let opened := env.pnc_session_open w.trace
  if opened ≠ 0 then some (opened, w.emit .pnc_session_open)
  else
    let allocated := env.pnc_session_alloc (session_opened w).trace (session_size cfg)
    if allocated ≠ 0 then some (config_err allocated (session_allocated cfg w))
    else
      let version := env.pnc_session_get_version (session_allocated cfg w).trace
      if version.1 ≠ 0 then some (config_err version.1 (session_versioned cfg w))
      else if toUInt32 version.2 < 0x303 then
        some (config_err version.1 (session_versioned cfg w))
      else
        match session_config env fuel (session_versioned cfg w) with
        | none => none
        | some (ret, w4) => some (configure_bound cfg env ret w4)

/-! ## `shdev.c`: the monitor thread and the module exit -/

/-- Where the monitor thread stands: at the label `monitor_restart`, at the
top of the monitoring loop, or returned with a value. -/
inductive ThreadState
  | monitor_restart
  | monitoring
  | exited (ret : Int)
deriving DecidableEq, Repr

/-- One round of `shdev_thread`: from `monitor_restart` to the monitoring
loop (or the exit), or one iteration of the monitoring loop. -/
def shdev_thread_step (cfg : Config) (env : Env) (fuel : Nat) :
    ThreadState → World → Option (ThreadState × World)
  | .exited ret, w => some (.exited ret, w)
  | .monitor_restart, w =>
    let stop := env.kthread_should_stop w.trace
    let w1 := w.emit .kthread_should_stop
    if stop then some (.exited 0, w1)
    else
      match configure cfg env fuel w1 with
      | none => none
      | some (ret, w2) =>
        if ret ≠ 0 then some (.exited (-1), w2) else some (.monitoring, w2)
  | .monitoring, w =>
    let stop := env.kthread_should_stop w.trace
    let w1 := w.emit .kthread_should_stop
    if stop then some (.exited 0, w1)
    else
      let waited := env.pnc_session_wait_event w1.trace
      let w2 := w1.emit
        (.pnc_session_wait_event (cfg.EVENT_PENDING_SIGNAL ||| cfg.EVENT_PENDING_REQUEST))
      if waited.1 ≠ 0 then
        if waited.1 = -ENODEV then some (.monitor_restart, w2.emit .pnc_session_close)
        else if waited.1 = -EPIPE then some (.monitor_restart, w2)
        else some (.monitoring, w2)
      else
        let events := toUInt32 waited.2
        if events &&& cfg.EVENT_PENDING_SIGNAL ≠ 0 then
          some (.monitoring, handle_signal cfg env w2)
        else some (.monitoring, w2)

/-- The function `shdev_thread`, run for at most `rounds` rounds from the
label `monitor_restart`: the state it reaches. -/
def shdev_thread_run (cfg : Config) (env : Env) (fuel : Nat) :
    Nat → ThreadState → World → Option (ThreadState × World)
  | 0, st, w => some (st, w)
  | rounds + 1, st, w =>
    match shdev_thread_step cfg env fuel st w with
    | none => none
    | some (st1, w1) => shdev_thread_run cfg env fuel rounds st1 w1

/-- The function `shdev_exit`. -/
def shdev_exit (cfg : Config) (w : World) : World :=
  let w1 := if w.statics._shdev_session then w.emit .pnc_session_close else w
  let w2 := w1.emit .kthread_stop
  let w3 := if cfg.PROVENCORE_SHARED_MMC then w2.emit (.flush_work MMC_DEVICE) else w2
  let w4 := if cfg.PROVENCORE_SHARED_ENET then w3.emit (.flush_work ENET_DEVICE) else w3
  if cfg.PROVENCORE_SHARED_SPI then w4.emit (.flush_work SPI_DEVICE) else w4

/-- The calls made by `n` failed rounds of the loop `session_config`: a
binding and a sleep of 100 ms each. -/
def retries : Nat → List Event
  | 0 => []
  | n + 1 => [.pnc_session_config_by_name, .msleep 100] ++ retries n

/-- The state of `configure` when the loop `session_config` ends after `n`
failed rounds and one more binding. -/
def session_bound (cfg : Config) (w : World) (n : Nat) : World :=
  { session_versioned cfg w with
    trace := (session_versioned cfg w).trace ++ retries n ++ [.pnc_session_config_by_name] }

/-- Whether the device of index `i` is compiled in
(`CONFIG_PROVENCORE_SHARED_MMC`, `_ENET`, `_SPI`). -/
def shared_device (cfg : Config) (i : Fin NUM_DEVICES) : Bool :=
  match i with
  | ⟨0, _⟩ => cfg.PROVENCORE_SHARED_MMC
  | ⟨1, _⟩ => cfg.PROVENCORE_SHARED_ENET
  | _ => cfg.PROVENCORE_SHARED_SPI

/-- The event of the readiness signal sent by `configure`. -/
def ready_signal : Event := .pnc_session_send_signal (SHDEV_SIGNAL SIGNAL_READY)

/-- The number of calls `schedule_work` for the work item of `device` in a
trace. -/
def submits (device : Nat) (tr : List Event) : Nat :=
  tr.count (.schedule_work device)

/-- The completion signals among the kernel calls of a trace, in order. -/
def signals_sent (tr : List Event) : List Nat :=
  tr.filterMap fun e =>
    match e with
    | .pnc_session_send_signal s => some s
    | _ => none

/-! ## Concrete builds, environments and states -/

/-- A 64-bit build with 4 KiB pages, the remote host and the RPMB relay. -/
def cfg64 : Config :=
  { BITS_PER_LONG := 64, PAGE_SIZE := 4096, PROVENCORE_MMC_REMOTE_HOST := true,
    PROVENCORE_MMC_USE_RPMB := true, PROVENCORE_MMC_DEVID := none,
    PROVENCORE_MMC_DEVICE := "/dev/mmcblk0".toList, MMC_BLOCK_MINORS := 8,
    PROVENCORE_MMC_RPMB_BLKCNT := none, PROVENCORE_MMC_RPMB_BLKSIZE := none,
    PROVENCORE_SHARED_MMC := true, PROVENCORE_SHARED_ENET := true,
    PROVENCORE_SHARED_SPI := true, SIZEOF_MMC_ENTRY := 32, EVENT_PENDING_SIGNAL := 1,
    EVENT_PENDING_REQUEST := 2 }

/-- An environment in which every lookup, open and control request succeeds,
the block device reports `c` blocks of `b` bytes, and every transfer reports
`n` bytes. -/
def envOk (c b : Nat) (n : Int) : Env :=
  { blkdev_get_by_dev := fun _ _ => true,
    blkdev_ioctl := fun _ cmd =>
      match cmd with
      | .BLKGETSIZE => (0, c)
      | .BLKPBSZGET => (0, b)
      | _ => (0, 0),
    filp_open := fun _ _ => none,
    has_unlocked_ioctl := fun _ => true,
    unlocked_ioctl := fun _ cmd =>
      match cmd with
      | .BLKGETSIZE => (0, c)
      | .BLKPBSZGET => (0, b)
      | _ => (0, 0),
    kernel_read := fun _ _ _ => n,
    read_data := fun _ _ _ => 0,
    kernel_write := fun _ _ _ => n,
    kmalloc := fun _ => true,
    ioc_multi_cmd := fun _ _ => 0,
    rpmb_response := fun _ _ frame => frame,
    enetdev_found := fun _ => true,
    ndo_do_ioctl := fun _ _ => 0,
    spidev_found := fun _ => true,
    spi_master_suspend := fun _ => 0,
    spi_master_resume := fun _ => 0,
    pnc_session_send_signal := fun _ _ => 0,
    pnc_session_open := fun _ => 0,
    pnc_session_alloc := fun _ _ => 0,
    pnc_session_get_version := fun _ => (0, 0x303),
    pnc_session_config_by_name := fun _ => 0,
    pnc_session_get_mem := fun _ => (0, 8192),
    pnc_session_get_signal := fun _ => (0, 0),
    pnc_session_wait_event := fun _ => (0, 0),
    kthread_should_stop := fun _ => false }

/-- An environment in which the binding of the session answers `-EAGAIN`,
then `-ENOENT`, then `r`. -/
def envBusy (r : Int) : Env :=
  { envOk 0 0 0 with
    pnc_session_config_by_name := fun tr =>
      if tr.count .pnc_session_config_by_name = 0 then -EAGAIN
      else if tr.count .pnc_session_config_by_name = 1 then -ENOENT
      else r }

/-- A request message for operation `op` on device `dev`. -/
def request (op dev : Nat) : shdev_message_t :=
  { operation := op, device := dev, status := 0, value := 0 }

/-- The descriptor of device `i` as `configure` publishes it on `cfg64`
(`sizeof(shdev_infos_t)` being 116), holding the request `op`. -/
def descOf (i op : Nat) : shdev_desc_t :=
  { id := SHDEV_DEVICE_TO_ID i, ns_to_s := request 0 0, s_to_ns := request op i,
    entry_offset := if i = MMC_DEVICE then 116 else 0,
    entry_size := if i = MMC_DEVICE then 32 else 0,
    data_offset := if i = MMC_DEVICE then 4096 else 0,
    data_size := if i = MMC_DEVICE then 4096 else 0 }

/-- A state in which every device holds the request `op`, the MMC entry is
`entry`, the data buffer holds `frame`, and nothing has been looked up. -/
def worldOf (op : Nat) (entry : shdev_mmc_entry_t) (frame : Nat → Nat) : World :=
  { shm :=
      { infos :=
          { magic := SHDEV_MAGIC_INFOS, num_devices := NUM_DEVICES,
            descriptors := fun i => descOf i.val op },
        mmc_entry := entry,
        data := frame },
    statics :=
      { _mmc_block_minor := -1, _shdev_mmc_bdev := none, _shared_enet_device := false,
        _shared_spi_device := false, _shdev_session := true },
    trace := [] }

/-- The state `worldOf op entry frame` after the id of every descriptor has
been overwritten with `id`. -/
def worldWithId (id op : Nat) (entry : shdev_mmc_entry_t) (frame : Nat → Nat) : World :=
  { shm :=
      { infos :=
          { magic := SHDEV_MAGIC_INFOS, num_devices := NUM_DEVICES,
            descriptors := fun i => { descOf i.val op with id := id } },
        mmc_entry := entry,
        data := frame },
    statics :=
      { _mmc_block_minor := -1, _shdev_mmc_bdev := none, _shared_enet_device := false,
        _shared_spi_device := false, _shdev_session := true },
    trace := [] }

/-- A state before the first configuration: the memory is zero, nothing has
been looked up and no session has been opened. -/
def worldZero : World :=
  { shm :=
      { infos :=
          { magic := 0, num_devices := 0,
            descriptors := fun _ =>
              { id := 0, ns_to_s := request 0 0, s_to_ns := request 0 0, entry_offset := 0,
                entry_size := 0, data_offset := 0, data_size := 0 } },
        mmc_entry := { devid := 0, hwpart := 0, lpart := 0, offset := 0, length := 0 },
        data := fun _ => 0 },
    statics :=
      { _mmc_block_minor := -1, _shdev_mmc_bdev := none, _shared_enet_device := false,
        _shared_spi_device := false, _shdev_session := false },
    trace := [] }

/-- The state that `configure` reaches from `worldZero` on `cfg64` when every
call of the session succeeds. -/
def worldConfigured : World :=
  ((configure cfg64 (envOk 0 0 0) 1 worldZero).getD (0, worldZero)).2

/-- The maximal run of digits that ends a string. -/
def trailing_digits (s : List Char) : List Char :=
  (s.reverse.takeWhile Char.isDigit).reverse

/-- The decimal value of a string of digits. -/
def decimal_value (ds : List Char) : Nat :=
  ds.foldl (fun acc c => acc * 10 + (c.toNat - 48)) 0

/-- The build `cfg64` with the device node of path `path`. -/
def cfgPath (path : List Char) : Config :=
  { cfg64 with PROVENCORE_MMC_DEVICE := path }

/-- An entry for the user partition with the given offset and length. -/
def userEntry (offset length : Nat) : shdev_mmc_entry_t :=
  { devid := 0, hwpart := MMC_PART_USER, lpart := 0, offset := offset, length := length }

/-- An RPMB frame whose request type is `req` and whose other bytes are 0. -/
def rpmbFrame (req : Nat) : Nat → Nat :=
  fun i => if i = 510 then req / 256 % 256 else if i = 511 then req % 256 else 0

/-! ## The length check of the read and write relay -/

/-- C1: with `length = 2 ^ 32` and a data buffer of 4096 bytes the read
request is not refused: the truncated length 0 passes the check, the device
node is opened and `kernel_read` is called for 4294967296 bytes; the call
returns the transfer count and not `-EINVAL`. -/
theorem mmcblk_remote_host_length_check_truncated :
    4096 < (userEntry 0 (2 ^ 32)).length ∧
    (descOf MMC_DEVICE READ_DEVICE).data_size = 4096 ∧
    (mmcblk_remote_host cfg64 (envOk 0 0 4096) (descOf MMC_DEVICE READ_DEVICE)
      (worldOf READ_DEVICE (userEntry 0 (2 ^ 32)) (fun _ => 0))).1 = 4096 ∧
    (mmcblk_remote_host cfg64 (envOk 0 0 4096) (descOf MMC_DEVICE READ_DEVICE)
      (worldOf READ_DEVICE (userEntry 0 (2 ^ 32)) (fun _ => 0))).1 ≠ -EINVAL ∧
    (mmcblk_remote_host cfg64 (envOk 0 0 4096) (descOf MMC_DEVICE READ_DEVICE)
      (worldOf READ_DEVICE (userEntry 0 (2 ^ 32)) (fun _ => 0))).2.trace =
      [.filp_open .PROVENCORE_MMC_DEVICE, .kernel_read 0 4294967296,
       .filp_close .PROVENCORE_MMC_DEVICE] := by
  decide

/-! ## Basic facts on the state -/

@[simp]
theorem World.emit_trace (w : World) (e : Event) :
    (w.emit e).trace = w.trace ++ [e] := rfl

@[simp]
theorem World.emit_shm (w : World) (e : Event) : (w.emit e).shm = w.shm := rfl

@[simp]
theorem World.emit_statics (w : World) (e : Event) :
    (w.emit e).statics = w.statics := rfl

/-- The lookup `mmcblk_get` does not touch the shared memory. -/
theorem mmcblk_get_shm (cfg : Config) (env : Env) (w : World) :
    (mmcblk_get cfg env w).2.shm = w.shm := by
  unfold mmcblk_get
  cases hb : w.statics._shdev_mmc_bdev with
  | some bdev => rfl
  | none =>
    simp only
    split
    · rfl
    · split <;> rfl

/-! ## The result of a transfer -/

/-- C2 (as stated it fails): a read of 100 bytes that transfers 50 bytes
returns 50, not `-EACCES`. -/
theorem mmcblk_remote_host_short_read_not_EACCES :
    (mmcblk_remote_host cfg64 (envOk 0 0 50) (descOf MMC_DEVICE READ_DEVICE)
      (worldOf READ_DEVICE (userEntry 0 100) (fun _ => 0))).1 = 50 ∧
    (mmcblk_remote_host cfg64 (envOk 0 0 50) (descOf MMC_DEVICE READ_DEVICE)
      (worldOf READ_DEVICE (userEntry 0 100) (fun _ => 0))).1 ≠ -EACCES := by
  decide

/-- C2 (amended): in the read and write cases of `mmcblk_remote_host`, once
the length check has passed and the device node is open, let `n` be the count
reported by the transfer and `length` the length handed to it.  If
`0 < n < length` (and `n` fits an `int`) the result is `n` itself, which is
neither 0 nor `-EACCES`; if `n = 0` the result is `-EACCES`; if `n` is
negative (and fits an `int`) the result is `n` itself. -/
theorem mmcblk_remote_host_transfer_result (cfg : Config) (env : Env) (desc : shdev_desc_t)
    (w : World) (n : Int)
    (hid : desc.id = SHDEV_DEVICE_TO_ID MMC_DEVICE)
    (hpart : w.shm.mmc_entry.hwpart = MMC_PART_USER)
    (hop : desc.s_to_ns.operation = READ_DEVICE ∨ desc.s_to_ns.operation = WRITE_DEVICE)
    (hlen : toUInt32 w.shm.mmc_entry.length ≤ desc.data_size)
    (hopen : env.filp_open w.trace .PROVENCORE_MMC_DEVICE = none)
    (hn : (if desc.s_to_ns.operation = WRITE_DEVICE then
            env.kernel_write (w.trace ++ [.filp_open .PROVENCORE_MMC_DEVICE])
              (toInt64 w.shm.mmc_entry.offset) (toULong cfg w.shm.mmc_entry.length)
          else
            env.kernel_read (w.trace ++ [.filp_open .PROVENCORE_MMC_DEVICE])
              (toInt64 w.shm.mmc_entry.offset) (toULong cfg w.shm.mmc_entry.length)) = n) :
    (0 < n → n < toULong cfg w.shm.mmc_entry.length → n < 2 ^ 31 →
      (mmcblk_remote_host cfg env desc w).1 = n ∧
      (mmcblk_remote_host cfg env desc w).1 ≠ 0 ∧
      (mmcblk_remote_host cfg env desc w).1 ≠ -EACCES) ∧
    (n = 0 → (mmcblk_remote_host cfg env desc w).1 = -EACCES) ∧
    (n < 0 → -(2 ^ 31) ≤ n → (mmcblk_remote_host cfg env desc w).1 = n) := by
  have hsel : desc.s_to_ns.operation ≠ SELECT_DEVICE := by
    rcases hop with h | h <;> rw [h] <;> decide
  have hres : (mmcblk_remote_host cfg env desc w).1 =
      if n > 0 ∧ toULong cfg n.toNat = toULong cfg w.shm.mmc_entry.length then 0
      else if n ≠ 0 then toInt32 n else -EACCES := by
    unfold mmcblk_remote_host mmcblk_remote_host_rw
    simp only [hid, hpart, ne_eq, not_true_eq_false, if_false, hsel, hop, if_true,
      MMC_PART_USER, MMC_PART_RPMB, OfNat.zero_ne_ofNat, and_false, not_lt.mpr hlen,
      World.emit_trace, World.emit_shm, hopen, decide_eq_true_eq]
    by_cases hw : desc.s_to_ns.operation = WRITE_DEVICE
    · simp only [hw, if_true] at hn ⊢
      rw [hn]
    · simp only [hw, if_false] at hn ⊢
      rw [hn]
  rw [hres]
  refine ⟨?_, ?_, ?_⟩
  · intro h0 hlt h31
    have hne : toULong cfg n.toNat ≠ toULong cfg w.shm.mmc_entry.length := by
      have h1 : toULong cfg n.toNat ≤ n.toNat := Nat.mod_le _ _
      have h2 : (n.toNat : Int) = n := Int.toNat_of_nonneg (le_of_lt h0)
      intro heq
      rw [← heq] at hlt
      omega
    have h32 : toInt32 n = n := by unfold toInt32; omega
    have hval : (if n > 0 ∧ toULong cfg n.toNat = toULong cfg w.shm.mmc_entry.length then 0
        else if n ≠ 0 then toInt32 n else -EACCES) = n := by
      simp only [hne, and_false, if_false, ne_eq, (ne_of_gt h0), not_false_eq_true, if_true, h32]
    rw [hval]
    refine ⟨rfl, ne_of_gt h0, ?_⟩
    unfold EACCES; omega
  · intro h0
    simp [h0]
  · intro h0 h31
    have h32 : toInt32 n = n := by unfold toInt32; omega
    simp only [gt_iff_lt, not_lt.mpr (le_of_lt h0), false_and, if_false, ne_eq, ne_of_lt h0,
      not_false_eq_true, if_true, h32]

/-- Witness of C2 (amended): a read of 100 bytes that transfers 50. -/
theorem mmcblk_remote_host_transfer_result_witness :
    (0 : Int) < 50 ∧ (50 : Int) < toULong cfg64 (userEntry 0 100).length ∧
    (mmcblk_remote_host cfg64 (envOk 0 0 50) (descOf MMC_DEVICE READ_DEVICE)
        (worldOf READ_DEVICE (userEntry 0 100) (fun _ => 0))).1 = 50 ∧
    (mmcblk_remote_host cfg64 (envOk 0 0 50) (descOf MMC_DEVICE READ_DEVICE)
        (worldOf READ_DEVICE (userEntry 0 100) (fun _ => 0))).1 ≠ 0 ∧
    (mmcblk_remote_host cfg64 (envOk 0 0 50) (descOf MMC_DEVICE READ_DEVICE)
        (worldOf READ_DEVICE (userEntry 0 100) (fun _ => 0))).1 ≠ -EACCES :=
  ⟨by decide, by decide,
    (mmcblk_remote_host_transfer_result cfg64 (envOk 0 0 50) (descOf MMC_DEVICE READ_DEVICE)
      (worldOf READ_DEVICE (userEntry 0 100) (fun _ => 0)) 50
      (by decide) (by decide) (by decide) (by decide) (by rfl) (by rfl)).1
      (by decide) (by decide) (by decide)⟩

/-! ## The select case -/

/-- C5: in `mmcblk_remote_host` on the user partition with operation
`SELECT_DEVICE`: when the block device is found and reports block count `c`
and physical block size `b` (two `unsigned long` values), the call returns 0
and writes `offset = b` and `length = b * c` modulo `2 ^ 64`, which is
`b * c` when that is below `2 ^ 64`; when the lookup or one of the two
queries fails, the result is not 0 and `offset` and `length` are unchanged. -/
theorem mmcblk_remote_host_select_geometry (cfg : Config) (env : Env) (desc : shdev_desc_t)
    (w : World)
    (hid : desc.id = SHDEV_DEVICE_TO_ID MMC_DEVICE)
    (hpart : w.shm.mmc_entry.hwpart = MMC_PART_USER)
    (hop : desc.s_to_ns.operation = SELECT_DEVICE) :
    (∀ (bdev : Int) (w1 : World) (b c : Nat),
      mmcblk_get cfg env w = (.ok bdev, w1) →
      env.blkdev_ioctl w1.trace .BLKGETSIZE = (0, c) →
      env.blkdev_ioctl (w1.trace ++ [.blkdev_ioctl .BLKGETSIZE]) .BLKPBSZGET = (0, b) →
      cfg.BITS_PER_LONG ≤ 64 → c < 2 ^ cfg.BITS_PER_LONG → b < 2 ^ cfg.BITS_PER_LONG →
      (mmcblk_remote_host cfg env desc w).1 = 0 ∧
      (mmcblk_remote_host cfg env desc w).2.shm.mmc_entry.offset = b ∧
      (mmcblk_remote_host cfg env desc w).2.shm.mmc_entry.length = (b * c) % 2 ^ 64 ∧
      (b * c < 2 ^ 64 →
        (mmcblk_remote_host cfg env desc w).2.shm.mmc_entry.length = b * c)) ∧
    (((mmcblk_get cfg env w).1.isOk = false ∨
      (env.blkdev_ioctl (mmcblk_get cfg env w).2.trace .BLKGETSIZE).1 ≠ 0 ∨
      (env.blkdev_ioctl ((mmcblk_get cfg env w).2.trace ++ [.blkdev_ioctl .BLKGETSIZE])
        .BLKPBSZGET).1 ≠ 0) →
      (mmcblk_remote_host cfg env desc w).1 ≠ 0 ∧
      (mmcblk_remote_host cfg env desc w).2.shm.mmc_entry.offset = w.shm.mmc_entry.offset ∧
      (mmcblk_remote_host cfg env desc w).2.shm.mmc_entry.length =
        w.shm.mmc_entry.length) := by
  have hmain : mmcblk_remote_host cfg env desc w = mmcblk_remote_host_select cfg env w := by
    unfold mmcblk_remote_host
    simp [hid, hpart, hop, MMC_PART_USER, MMC_PART_RPMB]
  rw [hmain]
  have hshm := mmcblk_get_shm cfg env w
  constructor
  · intro bdev w1 b c hget h1 h2 hbits hc hb
    have hb64 : b < 2 ^ 64 :=
      lt_of_lt_of_le hb (Nat.pow_le_pow_right (by decide) hbits)
    have hc64 : c < 2 ^ 64 :=
      lt_of_lt_of_le hc (Nat.pow_le_pow_right (by decide) hbits)
    have e1 : toULong cfg b = b := Nat.mod_eq_of_lt hb
    have e2 : toULong cfg c = c := Nat.mod_eq_of_lt hc
    have e3 : toUInt64 c = c := Nat.mod_eq_of_lt hc64
    have hsel : mmcblk_remote_host_select cfg env w =
        (0, { (w1.emit (.blkdev_ioctl .BLKGETSIZE)).emit (.blkdev_ioctl .BLKPBSZGET) with
          shm := { w1.shm with mmc_entry :=
            { w1.shm.mmc_entry with offset := b, length := toUInt64 (b * c) } } }) := by
      unfold mmcblk_remote_host_select
      rw [hget]
      simp [h1, h2, e1, e2, e3]
    rw [hsel]
    refine ⟨rfl, rfl, rfl, ?_⟩
    intro hlt
    exact Nat.mod_eq_of_lt hlt
  · intro hfail
    unfold mmcblk_remote_host_select
    rcases hg : mmcblk_get cfg env w with ⟨r, w1⟩
    rw [hg] at hshm hfail
    simp only at hshm
    cases r with
    | error e =>
      simp only [World.emit_shm, hshm]
      refine ⟨?_, trivial, trivial⟩
      decide
    | ok bdev =>
      simp only [Except.isOk, Except.toBool, Bool.true_eq_false, false_or] at hfail
      simp only [World.emit_trace, World.emit_shm]
      by_cases h1 : (env.blkdev_ioctl w1.trace .BLKGETSIZE).1 = 0
      · have h2 : (env.blkdev_ioctl (w1.trace ++ [.blkdev_ioctl .BLKGETSIZE])
            .BLKPBSZGET).1 ≠ 0 := by
          rcases hfail with h | h
          · exact absurd h1 h
          · exact h
        simp only [h1, ne_eq, not_true_eq_false, if_false, h2, not_false_eq_true, if_true,
          World.emit_shm, hshm, and_self, and_true]
      · simp only [ne_eq, h1, not_false_eq_true, if_true, World.emit_shm, hshm, and_self,
          and_true]

/-- Witness of C5: a device with 1,000,000 blocks of 4096 bytes yields
`offset = 4096` and `length = 4,096,000,000`. -/
theorem mmcblk_remote_host_select_geometry_witness :
    (mmcblk_remote_host cfg64 (envOk 1000000 4096 0) (descOf MMC_DEVICE SELECT_DEVICE)
        (worldOf SELECT_DEVICE (userEntry 0 0) (fun _ => 0))).1 = 0 ∧
    (mmcblk_remote_host cfg64 (envOk 1000000 4096 0) (descOf MMC_DEVICE SELECT_DEVICE)
        (worldOf SELECT_DEVICE (userEntry 0 0) (fun _ => 0))).2.shm.mmc_entry.offset = 4096 ∧
    (mmcblk_remote_host cfg64 (envOk 1000000 4096 0) (descOf MMC_DEVICE SELECT_DEVICE)
        (worldOf SELECT_DEVICE (userEntry 0 0) (fun _ => 0))).2.shm.mmc_entry.length
      = 4096000000 :=
  have h := (mmcblk_remote_host_select_geometry cfg64 (envOk 1000000 4096 0)
    (descOf MMC_DEVICE SELECT_DEVICE) (worldOf SELECT_DEVICE (userEntry 0 0) (fun _ => 0))
    (by decide) (by decide) (by decide)).1 _ _ 4096 1000000 rfl rfl rfl
    (by decide) (by decide) (by decide)
  ⟨h.1, h.2.1, h.2.2.2 (by decide)⟩

/-! ## Hardware partitions other than user and RPMB -/

/-- C6: for a descriptor with the MMC device id and a hardware partition
that is neither the user partition (0) nor the RPMB partition (3),
`mmcblk_remote_host` returns `-EACCES` whatever the operation code, and
leaves the state, the StorageEntry and the trace of kernel calls included,
as it was. -/
theorem mmcblk_remote_host_hwpart_rejected (cfg : Config) (env : Env) (desc : shdev_desc_t)
    (w : World)
    (hid : desc.id = SHDEV_DEVICE_TO_ID MMC_DEVICE)
    (huser : w.shm.mmc_entry.hwpart ≠ MMC_PART_USER)
    (hrpmb : w.shm.mmc_entry.hwpart ≠ MMC_PART_RPMB) :
    mmcblk_remote_host cfg env desc w = (-EACCES, w) := by
  unfold mmcblk_remote_host
  simp [hid, huser, hrpmb]

/-- Witness of C6: a write request on hardware partition 1 (a boot
partition). -/
theorem mmcblk_remote_host_hwpart_rejected_witness :
    (mmcblk_remote_host cfg64 (envOk 0 0 0) (descOf MMC_DEVICE WRITE_DEVICE)
      (worldOf WRITE_DEVICE { userEntry 0 16 with hwpart := 1 } (fun _ => 0))).1 = -EACCES :=
  congrArg Prod.fst
    (mmcblk_remote_host_hwpart_rejected cfg64 (envOk 0 0 0) (descOf MMC_DEVICE WRITE_DEVICE)
      (worldOf WRITE_DEVICE { userEntry 0 16 with hwpart := 1 } (fun _ => 0))
      (by decide) (by decide) (by decide))

/-! ## The RPMB relay -/

/-- The state in which `mmcblk_remote_host_rpmb` classifies the frame: node
opened, command buffer allocated. -/
theorem mmcblk_remote_host_rpmb_classify (cfg : Config) (env : Env) (desc : shdev_desc_t)
    (w : World)
    (hop : desc.s_to_ns.operation ≠ SELECT_DEVICE)
    (hopen : env.filp_open w.trace .PROVENCORE_MMC_RPMB_DEVICE = none)
    (hioctl : env.has_unlocked_ioctl
      (w.trace ++ [.filp_open .PROVENCORE_MMC_RPMB_DEVICE]) = true)
    (halloc : env.kmalloc (w.trace ++ [.filp_open .PROVENCORE_MMC_RPMB_DEVICE]) = true) :
    mmcblk_remote_host_rpmb cfg env desc w =
      let w2 := (w.emit (.filp_open .PROVENCORE_MMC_RPMB_DEVICE)).emit .kmalloc
      let frame := DataPtr.shm desc.data_offset
      let cmd0 := INIT_MMC_IOC_CMD mmc_ioc_cmd.zero MMC_WRITE_MULTIPLE_BLOCK 1 frame
      if frame_request w.shm.data = RPMB_REQ_COUNTER ∨
          frame_request w.shm.data = RPMB_REQ_READ then
        rpmb_multi_cmd env
          { num_of_cmds := 2,
            cmds := [cmd0, INIT_MMC_IOC_CMD mmc_ioc_cmd.zero MMC_READ_MULTIPLE_BLOCK 0 frame,
              mmc_ioc_cmd.zero] } w2
      else if frame_request w.shm.data = RPMB_REQ_WRITE then
        rpmb_multi_cmd env
          { num_of_cmds := 3,
            cmds := [{ cmd0 with write_flag := 1 ||| RPMB_WRITE_FLAG_RELIABLE },
              INIT_MMC_IOC_CMD mmc_ioc_cmd.zero MMC_WRITE_MULTIPLE_BLOCK 1 (.stack frame_status),
              INIT_MMC_IOC_CMD mmc_ioc_cmd.zero MMC_READ_MULTIPLE_BLOCK 0 frame] } w2
      else (-EACCES, (w2.emit .kfree).emit (.filp_close .PROVENCORE_MMC_RPMB_DEVICE)) := by
  unfold mmcblk_remote_host_rpmb
  simp only [hopen, World.emit_trace, hioctl, Bool.not_true, Bool.false_eq_true, if_false, hop,
    halloc, World.emit_shm, RPMB_REQ_READ_COUNTER_CMDS, RPMB_REQ_WRITE_CMDS]

/-- The trace that `rpmb_multi_cmd` leaves. -/
theorem rpmb_multi_cmd_trace (env : Env) (pcmds : mmc_ioc_multi_cmd) (w : World) :
    (rpmb_multi_cmd env pcmds w).2.trace =
      w.trace ++ [.mmc_ioc_multi_cmd pcmds, .kfree,
        .filp_close .PROVENCORE_MMC_RPMB_DEVICE] := by
  simp [rpmb_multi_cmd]

/-- C3: in `mmcblk_remote_host_rpmb` for an operation other than select,
with the device node opened and the command buffer allocated, the request
type read big-endian at bytes 510 and 511 of the frame decides: type 3 issues
one multi-command request with `num_of_cmds = 3` whose first command has bit
31 set in `write_flag`; type 2 or 4 issues one multi-command request with
`num_of_cmds = 2` whose first command has bit 31 clear; every other type
issues no request and returns `-EACCES`. -/
theorem mmcblk_remote_host_rpmb_request_types (cfg : Config) (env : Env)
    (desc : shdev_desc_t) (w : World)
    (hop : desc.s_to_ns.operation ≠ SELECT_DEVICE)
    (hopen : env.filp_open w.trace .PROVENCORE_MMC_RPMB_DEVICE = none)
    (hioctl : env.has_unlocked_ioctl
      (w.trace ++ [.filp_open .PROVENCORE_MMC_RPMB_DEVICE]) = true)
    (halloc : env.kmalloc (w.trace ++ [.filp_open .PROVENCORE_MMC_RPMB_DEVICE]) = true) :
    (w.shm.data 510 % 256 * 256 + w.shm.data 511 % 256 = 3 →
      ∃ pcmds c rest,
        (mmcblk_remote_host_rpmb cfg env desc w).2.trace =
          w.trace ++ [.filp_open .PROVENCORE_MMC_RPMB_DEVICE, .kmalloc,
            .mmc_ioc_multi_cmd pcmds, .kfree, .filp_close .PROVENCORE_MMC_RPMB_DEVICE] ∧
        pcmds.num_of_cmds = 3 ∧ pcmds.cmds = c :: rest ∧ c.write_flag.testBit 31 = true) ∧
    (w.shm.data 510 % 256 * 256 + w.shm.data 511 % 256 = 2 ∨
      w.shm.data 510 % 256 * 256 + w.shm.data 511 % 256 = 4 →
      ∃ pcmds c rest,
        (mmcblk_remote_host_rpmb cfg env desc w).2.trace =
          w.trace ++ [.filp_open .PROVENCORE_MMC_RPMB_DEVICE, .kmalloc,
            .mmc_ioc_multi_cmd pcmds, .kfree, .filp_close .PROVENCORE_MMC_RPMB_DEVICE] ∧
        pcmds.num_of_cmds = 2 ∧ pcmds.cmds = c :: rest ∧ c.write_flag.testBit 31 = false) ∧
    (w.shm.data 510 % 256 * 256 + w.shm.data 511 % 256 ≠ 2 →
      w.shm.data 510 % 256 * 256 + w.shm.data 511 % 256 ≠ 3 →
      w.shm.data 510 % 256 * 256 + w.shm.data 511 % 256 ≠ 4 →
      (mmcblk_remote_host_rpmb cfg env desc w).1 = -EACCES ∧
      (mmcblk_remote_host_rpmb cfg env desc w).1 < 0 ∧
      (mmcblk_remote_host_rpmb cfg env desc w).2.trace =
        w.trace ++ [.filp_open .PROVENCORE_MMC_RPMB_DEVICE, .kmalloc, .kfree,
          .filp_close .PROVENCORE_MMC_RPMB_DEVICE]) := by
  rw [mmcblk_remote_host_rpmb_classify cfg env desc w hop hopen hioctl halloc]
  simp only [frame_request, RPMB_REQ_COUNTER, RPMB_REQ_READ, RPMB_REQ_WRITE]
  refine ⟨?_, ?_, ?_⟩
  · intro h3
    rw [if_neg (by omega), if_pos h3]
    refine ⟨?p, ?c, ?r, ?h1, ?h2, ?h3, ?h4⟩
    case h1 =>
      rw [rpmb_multi_cmd_trace]
      simp only [World.emit_trace, List.append_assoc, List.cons_append, List.nil_append]
      exact rfl
    case h2 => exact rfl
    case h3 => exact rfl
    case h4 =>
      show Nat.testBit (1 ||| RPMB_WRITE_FLAG_RELIABLE) 31 = true
      decide
  · intro h24
    rw [if_pos h24]
    refine ⟨?q, ?d, ?t, ?k1, ?k2, ?k3, ?k4⟩
    case k1 =>
      rw [rpmb_multi_cmd_trace]
      simp only [World.emit_trace, List.append_assoc, List.cons_append, List.nil_append]
      exact rfl
    case k2 => exact rfl
    case k3 => exact rfl
    case k4 =>
      show Nat.testBit 1 31 = false
      decide
  · intro h2 h3 h4
    simp only [h2, h3, h4, or_self, if_false]
    refine ⟨trivial, by decide, ?_⟩
    simp

/-- Witness of C3: a frame of request type 3 on an RPMB node that opens and
a buffer that is allocated. -/
theorem mmcblk_remote_host_rpmb_request_types_witness :
    ∃ pcmds c rest,
      (mmcblk_remote_host_rpmb cfg64 (envOk 0 0 0) (descOf MMC_DEVICE RPMB_DEVICE)
        (worldOf RPMB_DEVICE { userEntry 0 0 with hwpart := MMC_PART_RPMB }
          (rpmbFrame 3))).2.trace =
        [.filp_open .PROVENCORE_MMC_RPMB_DEVICE, .kmalloc, .mmc_ioc_multi_cmd pcmds, .kfree,
          .filp_close .PROVENCORE_MMC_RPMB_DEVICE] ∧
      pcmds.num_of_cmds = 3 ∧ pcmds.cmds = c :: rest ∧ c.write_flag.testBit 31 = true :=
  (mmcblk_remote_host_rpmb_request_types cfg64 (envOk 0 0 0) (descOf MMC_DEVICE RPMB_DEVICE)
    (worldOf RPMB_DEVICE { userEntry 0 0 with hwpart := MMC_PART_RPMB } (rpmbFrame 3))
    (by decide) rfl rfl rfl).1 (by decide)

/-- C4: for an RPMB frame of request type 0x0003 (operation other than
select, node opened, buffer allocated) the one multi-command request carries
three commands, in this order: a write-multiple-block on the caller's frame
with `write_flag = 1 | (1 << 31)`; a write-multiple-block with
`write_flag = 1` on a separate frame of 512 bytes, 510 zero bytes followed by
`0x00 0x05`; a read-multiple-block with `write_flag = 0` on the caller's
frame.  Every command has `blksz = 512` and `blocks = 1`. -/
theorem mmcblk_remote_host_rpmb_write_sequence (cfg : Config) (env : Env)
    (desc : shdev_desc_t) (w : World)
    (hop : desc.s_to_ns.operation ≠ SELECT_DEVICE)
    (hopen : env.filp_open w.trace .PROVENCORE_MMC_RPMB_DEVICE = none)
    (hioctl : env.has_unlocked_ioctl
      (w.trace ++ [.filp_open .PROVENCORE_MMC_RPMB_DEVICE]) = true)
    (halloc : env.kmalloc (w.trace ++ [.filp_open .PROVENCORE_MMC_RPMB_DEVICE]) = true)
    (hreq : w.shm.data 510 % 256 * 256 + w.shm.data 511 % 256 = 0x0003) :
    ∃ c0 c1 c2 status,
      (mmcblk_remote_host_rpmb cfg env desc w).2.trace =
        w.trace ++ [.filp_open .PROVENCORE_MMC_RPMB_DEVICE, .kmalloc,
          .mmc_ioc_multi_cmd { num_of_cmds := 3, cmds := [c0, c1, c2] }, .kfree,
          .filp_close .PROVENCORE_MMC_RPMB_DEVICE] ∧
      c0.opcode = MMC_WRITE_MULTIPLE_BLOCK ∧ c0.write_flag = 1 + 2 ^ 31 ∧
      c0.data_ptr = .shm desc.data_offset ∧
      c1.opcode = MMC_WRITE_MULTIPLE_BLOCK ∧ c1.write_flag = 1 ∧
      c1.data_ptr = .stack status ∧ status.length = 512 ∧
      status = List.replicate 510 0 ++ [0x00, 0x05] ∧
      c2.opcode = MMC_READ_MULTIPLE_BLOCK ∧ c2.write_flag = 0 ∧
      c2.data_ptr = .shm desc.data_offset ∧
      (∀ c ∈ [c0, c1, c2], c.blksz = 512 ∧ c.blocks = 1) := by
  rw [mmcblk_remote_host_rpmb_classify cfg env desc w hop hopen hioctl halloc]
  simp only [frame_request, RPMB_REQ_COUNTER, RPMB_REQ_READ, RPMB_REQ_WRITE]
  rw [if_neg (by omega), if_pos hreq, rpmb_multi_cmd_trace]
  simp only [World.emit_trace, List.append_assoc, List.cons_append, List.nil_append]
  refine ⟨_, _, _, frame_status, rfl, rfl, ?_, rfl, rfl, rfl, rfl, ?_, ?_, rfl, rfl, rfl, ?_⟩
  · show 1 ||| RPMB_WRITE_FLAG_RELIABLE = 1 + 2 ^ 31
    decide
  · simp only [frame_status, List.length_append, List.length_replicate, List.length_cons,
      List.length_nil]
  · exact rfl
  · intro c hc
    simp only [List.mem_cons, List.mem_singleton, List.not_mem_nil, or_false] at hc
    rcases hc with h | h | h <;> subst h <;> exact ⟨rfl, rfl⟩

/-- Witness of C4: the write frame on `cfg64`, where the caller's frame is at
offset 4096 of the shared memory. -/
theorem mmcblk_remote_host_rpmb_write_sequence_witness :
    ∃ c0 c1 c2 status,
      (mmcblk_remote_host_rpmb cfg64 (envOk 0 0 0) (descOf MMC_DEVICE RPMB_DEVICE)
        (worldOf RPMB_DEVICE { userEntry 0 0 with hwpart := MMC_PART_RPMB }
          (rpmbFrame 3))).2.trace =
        [] ++ [.filp_open .PROVENCORE_MMC_RPMB_DEVICE, .kmalloc,
          .mmc_ioc_multi_cmd { num_of_cmds := 3, cmds := [c0, c1, c2] }, .kfree,
          .filp_close .PROVENCORE_MMC_RPMB_DEVICE] ∧
      c0.opcode = MMC_WRITE_MULTIPLE_BLOCK ∧ c0.write_flag = 1 + 2 ^ 31 ∧
      c0.data_ptr = .shm 4096 ∧
      c1.opcode = MMC_WRITE_MULTIPLE_BLOCK ∧ c1.write_flag = 1 ∧
      c1.data_ptr = .stack status ∧ status.length = 512 ∧
      status = List.replicate 510 0 ++ [0x00, 0x05] ∧
      c2.opcode = MMC_READ_MULTIPLE_BLOCK ∧ c2.write_flag = 0 ∧
      c2.data_ptr = .shm 4096 ∧
      (∀ c ∈ [c0, c1, c2], c.blksz = 512 ∧ c.blocks = 1) :=
  mmcblk_remote_host_rpmb_write_sequence cfg64 (envOk 0 0 0) (descOf MMC_DEVICE RPMB_DEVICE)
    (worldOf RPMB_DEVICE { userEntry 0 0 with hwpart := MMC_PART_RPMB } (rpmbFrame 3))
    (by decide) rfl rfl rfl (by decide)

/-! ## Signals in a trace -/

theorem signals_sent_append (tr : List Event) (e : Event) :
    signals_sent (tr ++ [e]) = signals_sent tr ++ signals_sent [e] := by
  simp [signals_sent, List.filterMap_append]

/-! ## The work item -/

/-- The work item of a device whose descriptor carries the expected id: the
switch, then the response and the completion signal. -/
theorem device_work_func_matching (cfg : Config) (env : Env) (dev : shdev_t) (w : World)
    (i : Fin NUM_DEVICES) (hi : SHDEV_ID_TO_DEVICE dev.id = i.val)
    (hid : (w.shm.infos.descriptors i).id = dev.id) :
    device_work_func cfg env dev w =
      World.emit
        { (device_work_switch cfg env dev (w.shm.infos.descriptors i) w).2 with
          shm := { (device_work_switch cfg env dev (w.shm.infos.descriptors i) w).2.shm with
            infos :=
              { (device_work_switch cfg env dev (w.shm.infos.descriptors i) w).2.shm.infos with
                descriptors :=
                  Function.update
                    (device_work_switch cfg env dev
                      (w.shm.infos.descriptors i) w).2.shm.infos.descriptors i
                    { (device_work_switch cfg env dev
                        (w.shm.infos.descriptors i) w).2.shm.infos.descriptors i with
                      ns_to_s :=
                        { (w.shm.infos.descriptors i).s_to_ns with
                          status := 1,
                          value := status_value
                            (device_work_switch cfg env dev
                              (w.shm.infos.descriptors i) w).1 } } } } }
        (.pnc_session_send_signal dev.signal_msg) := by
  have h : SHDEV_ID_TO_DEVICE dev.id < NUM_DEVICES := hi ▸ i.isLt
  have hfin : (⟨SHDEV_ID_TO_DEVICE dev.id, h⟩ : Fin NUM_DEVICES) = i := Fin.ext hi
  unfold device_work_func
  simp only [dif_pos h, hfin, hid, ne_eq, not_true_eq_false, if_false]

theorem status_value_small (r : Int) (hr : r.natAbs < 2 ^ 16) : status_value r = r.natAbs := by
  unfold status_value toUInt16 toInt32
  split <;> omega

/-- A result whose magnitude is positive and below 65536, an errno value in
particular, is stored as a non-zero value. -/
theorem status_value_ne_zero (r : Int) (h0 : r ≠ 0) (hr : r.natAbs < 2 ^ 16) :
    status_value r ≠ 0 := by
  rw [status_value_small r hr]
  exact Int.natAbs_ne_zero.mpr h0

/-- C7: a read whose transfer reports 70000 bytes of the 4294971392
requested makes the operation return `r = 70000`; the response written by
`device_work_func` has the operation and device of the request and
`status = 1`, and its value is 4464, that is `|r|` modulo 65536, not `|r|`. -/
theorem device_work_func_value_not_abs :
    (device_work_switch cfg64 (envOk 0 0 70000) (_shdev_devices cfg64 0)
      (descOf MMC_DEVICE READ_DEVICE)
      (worldOf READ_DEVICE (userEntry 0 (2 ^ 32 + 4096)) (fun _ => 0))).1 = 70000 ∧
    ((device_work_func cfg64 (envOk 0 0 70000) (_shdev_devices cfg64 0)
      (worldOf READ_DEVICE (userEntry 0 (2 ^ 32 + 4096))
        (fun _ => 0))).shm.infos.descriptors 0).ns_to_s =
      { operation := READ_DEVICE, device := 0, status := 1, value := 4464 } ∧
    (4464 : Int) ≠ |70000| := by
  decide

/-- C8: in `device_work_func`, when the id of the descriptor read from the
shared memory differs from the id of the device, the work item returns with
the state as it was: no operation is called, nothing is written to the
shared memory and no signal is sent. -/
theorem device_work_func_id_mismatch (cfg : Config) (env : Env) (dev : shdev_t) (w : World)
    (h : SHDEV_ID_TO_DEVICE dev.id < NUM_DEVICES)
    (hid : (w.shm.infos.descriptors ⟨SHDEV_ID_TO_DEVICE dev.id, h⟩).id ≠ dev.id) :
    device_work_func cfg env dev w = w := by
  unfold device_work_func
  simp only [dif_pos h, hid, ne_eq, not_false_eq_true, if_true]

/-- Witness of C8: the MMC work item on a shared memory whose descriptor ids
have been overwritten with 0 leaves an empty trace. -/
theorem device_work_func_id_mismatch_witness :
    (device_work_func cfg64 (envOk 0 0 0) (_shdev_devices cfg64 0)
      (worldWithId 0 SUSPEND_DEVICE (userEntry 0 0) (fun _ => 0))).trace = [] :=
  congrArg World.trace
    (device_work_func_id_mismatch cfg64 (envOk 0 0 0) (_shdev_devices cfg64 0)
      (worldWithId 0 SUSPEND_DEVICE (userEntry 0 0) (fun _ => 0)) (by decide) (by decide))

/-- C9: a read whose transfer reports 65536 bytes of the 4294971392
requested fails with the non-zero result 65536, and the response written by
`device_work_func` has `status = 1` and `value = 0`. -/
theorem device_work_func_failure_value_zero :
    (device_work_switch cfg64 (envOk 0 0 65536) (_shdev_devices cfg64 0)
      (descOf MMC_DEVICE READ_DEVICE)
      (worldOf READ_DEVICE (userEntry 0 (2 ^ 32 + 4096)) (fun _ => 0))).1 = 65536 ∧
    ((device_work_func cfg64 (envOk 0 0 65536) (_shdev_devices cfg64 0)
      (worldOf READ_DEVICE (userEntry 0 (2 ^ 32 + 4096))
        (fun _ => 0))).shm.infos.descriptors 0).ns_to_s.status = 1 ∧
    ((device_work_func cfg64 (envOk 0 0 65536) (_shdev_devices cfg64 0)
      (worldOf READ_DEVICE (userEntry 0 (2 ^ 32 + 4096))
        (fun _ => 0))).shm.infos.descriptors 0).ns_to_s.value = 0 := by
  decide

/-! ## Reception of signals -/

theorem and_two_pow_ne_zero (m b : Nat) : m &&& 2 ^ b ≠ 0 ↔ m.testBit b = true := by
  constructor
  · intro h
    by_contra hb
    apply h
    apply Nat.eq_of_testBit_eq
    intro i
    rw [Nat.testBit_and, Nat.zero_testBit, Nat.testBit_two_pow]
    by_cases hi : b = i
    · subst hi
      simp [Bool.not_eq_true _ ▸ hb]
    · simp [hi]
  · intro hb h
    have := congrArg (fun x => x.testBit b) h
    simp [Nat.testBit_and, hb, Nat.testBit_two_pow_self] at this

theorem signal_bit_set (mask b : Nat) (hb : b < 32) :
    toUInt32 mask &&& SHDEV_SIGNAL b ≠ 0 ↔ mask.testBit b = true := by
  have h1 : SHDEV_SIGNAL b = 2 ^ b := by
    unfold SHDEV_SIGNAL toUInt32
    rw [Nat.one_shiftLeft]
    exact Nat.mod_eq_of_lt (Nat.pow_lt_pow_right (by decide) hb)
  rw [h1, and_two_pow_ne_zero]
  unfold toUInt32
  rw [Nat.testBit_mod_two_pow]
  simp [hb]

/-- C11: in `handle_signal`, when the mask is read successfully, the calls
made after the read are, in this order, one `schedule_work` for the MMC
device if it is compiled in and bit 1 of the mask is set, one for the network
device if it is compiled in and bit 2 is set, one for the SPI device if it is
compiled in and bit 3 is set, and nothing else: each device gets exactly one
submit when its bit is set and none otherwise, and bit 0 and bits 4 to 31
cause no submit.  When reading the mask fails, the read is the only call. -/
theorem handle_signal_submits (cfg : Config) (env : Env) (w : World) :
    (∀ mask, env.pnc_session_get_signal w.trace = (0, mask) →
      (handle_signal cfg env w).trace =
        w.trace ++ [.pnc_session_get_signal] ++
          (if cfg.PROVENCORE_SHARED_MMC ∧ mask.testBit 1 = true then
            [.schedule_work MMC_DEVICE] else []) ++
          (if cfg.PROVENCORE_SHARED_ENET ∧ mask.testBit 2 = true then
            [.schedule_work ENET_DEVICE] else []) ++
          (if cfg.PROVENCORE_SHARED_SPI ∧ mask.testBit 3 = true then
            [.schedule_work SPI_DEVICE] else []) ∧
      submits MMC_DEVICE (handle_signal cfg env w).trace =
        submits MMC_DEVICE w.trace +
          (if cfg.PROVENCORE_SHARED_MMC ∧ mask.testBit 1 = true then 1 else 0) ∧
      submits ENET_DEVICE (handle_signal cfg env w).trace =
        submits ENET_DEVICE w.trace +
          (if cfg.PROVENCORE_SHARED_ENET ∧ mask.testBit 2 = true then 1 else 0) ∧
      submits SPI_DEVICE (handle_signal cfg env w).trace =
        submits SPI_DEVICE w.trace +
          (if cfg.PROVENCORE_SHARED_SPI ∧ mask.testBit 3 = true then 1 else 0)) ∧
    ((env.pnc_session_get_signal w.trace).1 ≠ 0 →
      (handle_signal cfg env w).trace = w.trace ++ [.pnc_session_get_signal]) := by
  constructor
  · intro mask hget
    have htrace : (handle_signal cfg env w).trace =
        w.trace ++ [.pnc_session_get_signal] ++
          (if cfg.PROVENCORE_SHARED_MMC ∧ mask.testBit 1 = true then
            [.schedule_work MMC_DEVICE] else []) ++
          (if cfg.PROVENCORE_SHARED_ENET ∧ mask.testBit 2 = true then
            [.schedule_work ENET_DEVICE] else []) ++
          (if cfg.PROVENCORE_SHARED_SPI ∧ mask.testBit 3 = true then
            [.schedule_work SPI_DEVICE] else []) := by
      unfold handle_signal
      simp only [hget, ne_eq, not_true_eq_false, if_false, SIGNAL_MMC_MESSAGE,
        SIGNAL_ENET_MESSAGE, SIGNAL_SPI_MESSAGE, signal_bit_set mask 1 (by decide),
        signal_bit_set mask 2 (by decide), signal_bit_set mask 3 (by decide), schedule_work]
      by_cases h1 : cfg.PROVENCORE_SHARED_MMC = true ∧ mask.testBit 1 = true <;>
        by_cases h2 : cfg.PROVENCORE_SHARED_ENET = true ∧ mask.testBit 2 = true <;>
        by_cases h3 : cfg.PROVENCORE_SHARED_SPI = true ∧ mask.testBit 3 = true <;>
        simp [h1, h2, h3]
    refine ⟨htrace, ?_, ?_, ?_⟩ <;> rw [htrace] <;>
      by_cases h1 : cfg.PROVENCORE_SHARED_MMC = true ∧ mask.testBit 1 = true <;>
      by_cases h2 : cfg.PROVENCORE_SHARED_ENET = true ∧ mask.testBit 2 = true <;>
      by_cases h3 : cfg.PROVENCORE_SHARED_SPI = true ∧ mask.testBit 3 = true <;>
      simp [submits, h1, h2, h3, MMC_DEVICE, ENET_DEVICE, SPI_DEVICE, List.count_cons,
        List.count_append]
  · intro hfail
    unfold handle_signal
    simp [hfail]

/-- Witness of C11: the mask with bits 0, 1 and 3 set submits the MMC and
the SPI work items, once each. -/
theorem handle_signal_submits_witness :
    (handle_signal cfg64
      { envOk 0 0 0 with pnc_session_get_signal := fun _ => (0, 0b1011) }
      (worldOf SUSPEND_DEVICE (userEntry 0 0) (fun _ => 0))).trace =
      [.pnc_session_get_signal, .schedule_work MMC_DEVICE, .schedule_work SPI_DEVICE] :=
  ((handle_signal_submits cfg64
    { envOk 0 0 0 with pnc_session_get_signal := fun _ => (0, 0b1011) }
    (worldOf SUSPEND_DEVICE (userEntry 0 0) (fun _ => 0))).1 0b1011 rfl).1

/-! ## Configuration: the layout written to the shared memory -/

theorem SHDEV_ID_roundtrip (i : Nat) (h : i < 2 ^ 16) :
    SHDEV_ID_TO_DEVICE (SHDEV_DEVICE_TO_ID i) = i := by
  have hi : toUInt32 i = i := Nat.mod_eq_of_lt (lt_trans h (by decide))
  have hlt : i ||| SHDEV_DEVICE_PREFIX < 2 ^ 32 :=
    Nat.or_lt_two_pow (lt_trans h (by decide)) (by decide)
  unfold SHDEV_ID_TO_DEVICE SHDEV_DEVICE_TO_ID
  rw [hi]
  have h2 : toUInt32 (i ||| SHDEV_DEVICE_PREFIX) = i ||| SHDEV_DEVICE_PREFIX :=
    Nat.mod_eq_of_lt hlt
  rw [h2]
  apply Nat.eq_of_testBit_eq
  intro j
  rw [Nat.testBit_and, Nat.testBit_or]
  by_cases hj : j < 16
  · have hm : (2 ^ 32 - 1 - SHDEV_DEVICE_PREFIX).testBit j = true := by
      interval_cases j <;> decide
    have hp : SHDEV_DEVICE_PREFIX.testBit j = false := by
      interval_cases j <;> decide
    rw [hm, hp, Bool.or_false, Bool.and_true]
  · have hib : i.testBit j = false :=
      Nat.testBit_lt_two_pow (lt_of_lt_of_le h (Nat.pow_le_pow_right (by decide) (by omega)))
    have h0 : SHDEV_DEVICE_PREFIX &&& (2 ^ 32 - 1 - SHDEV_DEVICE_PREFIX) = 0 := by decide
    have h1 := congrArg (fun x => x.testBit j) h0
    simp only [Nat.testBit_and, Nat.zero_testBit] at h1
    rw [hib, Bool.false_or]
    exact h1

/-- The header that `configure_layout` leaves: magic and device count. -/
theorem configure_layout_header (cfg : Config) (w : World) :
    (configure_layout cfg w).2.shm.infos.magic = SHDEV_MAGIC_INFOS ∧
    (configure_layout cfg w).2.shm.infos.num_devices = NUM_DEVICES := by
  unfold configure_layout set_descriptor
  constructor <;>
    cases cfg.PROVENCORE_SHARED_MMC <;> cases cfg.PROVENCORE_MMC_REMOTE_HOST <;>
    cases cfg.PROVENCORE_SHARED_ENET <;> cases cfg.PROVENCORE_SHARED_SPI <;> rfl

/-- The ids that `configure_layout` leaves for the devices compiled in. -/
theorem configure_layout_ids (cfg : Config) (w : World) (i : Fin NUM_DEVICES)
    (h : shared_device cfg i = true) :
    ((configure_layout cfg w).2.shm.infos.descriptors i).id = SHDEV_DEVICE_TO_ID i.val := by
  unfold configure_layout set_descriptor
  fin_cases i <;> simp only [shared_device] at h <;>
    cases h1 : cfg.PROVENCORE_SHARED_MMC <;> cases h2 : cfg.PROVENCORE_MMC_REMOTE_HOST <;>
    cases h3 : cfg.PROVENCORE_SHARED_ENET <;> cases h4 : cfg.PROVENCORE_SHARED_SPI <;>
    simp_all <;> rfl

theorem configure_layout_trace (cfg : Config) (w : World) :
    (configure_layout cfg w).2.trace = w.trace := by
  unfold configure_layout set_descriptor
  cases cfg.PROVENCORE_SHARED_MMC <;> cases cfg.PROVENCORE_MMC_REMOTE_HOST <;>
    cases cfg.PROVENCORE_SHARED_ENET <;> cases cfg.PROVENCORE_SHARED_SPI <;> rfl

/-- The MMC descriptor and the offsets that `configure_layout` leaves when
the MMC device and its remote host are compiled in. -/
theorem configure_layout_mmc (cfg : Config) (w : World)
    (hm : cfg.PROVENCORE_SHARED_MMC = true) (hr : cfg.PROVENCORE_MMC_REMOTE_HOST = true) :
    ((configure_layout cfg w).2.shm.infos.descriptors 0).entry_offset =
      toUInt32 sizeof_shdev_infos_t ∧
    ((configure_layout cfg w).2.shm.infos.descriptors 0).entry_size =
      toUInt32 cfg.SIZEOF_MMC_ENTRY ∧
    ((configure_layout cfg w).2.shm.infos.descriptors 0).data_offset =
      toUInt32 (toULong cfg (SHDEV_PAGES * cfg.PAGE_SIZE)) ∧
    ((configure_layout cfg w).2.shm.infos.descriptors 0).data_size =
      toUInt32 (toULong cfg (SHDEV_MMC_PAGES * cfg.PAGE_SIZE)) ∧
    (configure_layout cfg w).1.infos_offset =
      toUInt32 (toUInt32 sizeof_shdev_infos_t + toUInt32 cfg.SIZEOF_MMC_ENTRY) ∧
    (configure_layout cfg w).1.data_offset =
      toUInt32 (toUInt32 (toULong cfg (SHDEV_PAGES * cfg.PAGE_SIZE)) +
        toUInt32 (toULong cfg (SHDEV_MMC_PAGES * cfg.PAGE_SIZE))) := by
  unfold configure_layout set_descriptor
  cases h3 : cfg.PROVENCORE_SHARED_ENET <;> cases h4 : cfg.PROVENCORE_SHARED_SPI <;>
    simp [hm, hr] <;> refine ⟨?_, ?_, ?_, ?_⟩ <;> rfl

theorem config_err_last (ret : Int) (w : World) :
    (config_err ret w).2.trace.getLast? = some .pnc_session_close := by
  simp [config_err]

theorem session_config_shm (env : Env) :
    ∀ (fuel : Nat) (w : World) (ret : Int) (w1 : World),
      session_config env fuel w = some (ret, w1) → w1.shm = w.shm ∧ w1.statics = w.statics
  | 0, w, ret, w1, h => by simp [session_config] at h
  | fuel + 1, w, ret, w1, h => by
    unfold session_config at h
    simp only at h
    split at h
    · have ih := session_config_shm env fuel _ ret w1 h
      simpa using ih
    · simp only [Option.some.injEq, Prod.mk.injEq] at h
      obtain ⟨-, rfl⟩ := h
      exact ⟨rfl, rfl⟩

/-- A run of `configure` that ends with the readiness signal: it returns 0,
the memory it was given is the one of the start filled by `configure_layout`,
and both checks of the layout have passed against the size reported by
`pnc_session_get_mem`. -/
theorem configure_ready (cfg : Config) (env : Env) (fuel : Nat) (w w1 : World) (ret : Int)
    (hconf : configure cfg env fuel w = some (ret, w1))
    (hready : w1.trace.getLast? = some ready_signal) :
    ret = 0 ∧
    ∃ w4 : World, w4.shm = w.shm ∧ (env.pnc_session_get_mem w4.trace).1 = 0 ∧
      (configure_layout cfg (w4.emit .pnc_session_get_mem)).1.infos_offset ≤
        toULong cfg (SHDEV_PAGES * cfg.PAGE_SIZE) ∧
      (configure_layout cfg (w4.emit .pnc_session_get_mem)).1.data_offset ≤
        toULong cfg (env.pnc_session_get_mem w4.trace).2 ∧
      w1 = (configure_layout cfg (w4.emit .pnc_session_get_mem)).2.emit ready_signal ∧
      w1.trace = w4.trace ++ [.pnc_session_get_mem, ready_signal] := by
  have herr : ∀ (r : Int) (v : World), config_err r v = (ret, w1) → False := by
    intro r v h
    have h1 := config_err_last r v
    rw [h] at h1
    rw [hready] at h1
    simp [ready_signal] at h1
  unfold configure at hconf
  simp only at hconf
  split at hconf
  · simp only [Option.some.injEq, Prod.mk.injEq] at hconf
    obtain ⟨-, rfl⟩ := hconf
    simp [ready_signal] at hready
  · split at hconf
    · exact (herr _ _ (Option.some.inj hconf)).elim
    · split at hconf
      · exact (herr _ _ (Option.some.inj hconf)).elim
      · split at hconf
        · exact (herr _ _ (Option.some.inj hconf)).elim
        · split at hconf
          · exact absurd hconf (by simp)
          · rename_i r w4 hsc
            have hshm : w4.shm = w.shm := (session_config_shm env fuel _ r w4 hsc).1
            have hconf := Option.some.inj hconf
            unfold configure_bound at hconf
            simp only at hconf
            split at hconf
            · exact (herr _ _ hconf).elim
            · split at hconf
              · exact (herr _ _ hconf).elim
              · split at hconf
                · exact (herr _ _ hconf).elim
                · split at hconf
                  · exact (herr _ _ hconf).elim
                  · split at hconf
                    · exact (herr _ _ hconf).elim
                    · simp only [Prod.mk.injEq] at hconf
                      obtain ⟨h0, hw⟩ := hconf
                      refine ⟨h0.symm, w4, ?_, ?_, ?_, ?_, ?_, ?_⟩
                      · exact hshm
                      · simp_all
                      · simp_all
                      · simp_all
                      · rw [← hw]; rfl
                      · rw [← hw]
                        simp [configure_layout_trace, ready_signal]

/-! ## Configuration: what a successful run publishes -/

/-- C12: after a run of `configure` that returns 0 having signalled
readiness, the magic is `0xabeef001`, the device count is `NUM_DEVICES` (3),
and for every index `i` of a device compiled in, `descriptors[i].id` is
`SHDEV_DEVICE_TO_ID(i) = i | 0xabed0000` and `SHDEV_ID_TO_DEVICE` of it is
`i`; moreover `SHDEV_ID_TO_DEVICE(SHDEV_DEVICE_TO_ID(i)) = i` for every
`i < 2 ^ 16`. -/
theorem configure_publishes_ids (cfg : Config) (env : Env) (fuel : Nat) (w w1 : World)
    (hconf : configure cfg env fuel w = some (0, w1))
    (hready : w1.trace.getLast? = some ready_signal) :
    w1.shm.infos.magic = 0xabeef001 ∧
    w1.shm.infos.num_devices = 3 ∧
    (∀ i : Fin NUM_DEVICES, shared_device cfg i = true →
      (w1.shm.infos.descriptors i).id = SHDEV_DEVICE_TO_ID i.val ∧
      (w1.shm.infos.descriptors i).id = i.val ||| 0xabed0000 ∧
      SHDEV_ID_TO_DEVICE (w1.shm.infos.descriptors i).id = i.val) ∧
    (∀ i : Nat, i < 2 ^ 16 → SHDEV_ID_TO_DEVICE (SHDEV_DEVICE_TO_ID i) = i) := by
  obtain ⟨-, w4, -, -, -, -, hw, -⟩ := configure_ready cfg env fuel w w1 0 hconf hready
  have hh := configure_layout_header cfg (w4.emit .pnc_session_get_mem)
  subst hw
  refine ⟨hh.1, hh.2, ?_, SHDEV_ID_roundtrip⟩
  intro i hi
  have hid := configure_layout_ids cfg (w4.emit .pnc_session_get_mem) i hi
  have hlt : i.val < 2 ^ 16 := lt_trans i.isLt (by decide)
  refine ⟨hid, ?_, ?_⟩
  · rw [World.emit_shm, hid]
    unfold SHDEV_DEVICE_TO_ID toUInt32 SHDEV_DEVICE_PREFIX
    rw [Nat.mod_eq_of_lt (lt_trans hlt (by decide))]
  · rw [World.emit_shm, hid]
    exact SHDEV_ID_roundtrip i.val hlt

/-- Witness of C12: the configuration of `cfg64` from a zeroed memory. -/
theorem configure_publishes_ids_witness :
    worldConfigured.shm.infos.magic = 0xabeef001 ∧
    worldConfigured.shm.infos.num_devices = 3 ∧
    (worldConfigured.shm.infos.descriptors 1).id = 0xabed0001 ∧
    SHDEV_ID_TO_DEVICE (worldConfigured.shm.infos.descriptors 2).id = 2 :=
  have h := configure_publishes_ids cfg64 (envOk 0 0 0) 1 worldZero worldConfigured rfl
    (by decide)
  ⟨h.1, h.2.1, (h.2.2.1 1 rfl).2.1, (h.2.2.1 2 rfl).2.2⟩

/-- The MMC descriptor after a successful run of `configure` with the remote
host compiled in. -/
theorem configure_ready_mmc (cfg : Config) (env : Env) (fuel : Nat) (w w1 : World)
    (hconf : configure cfg env fuel w = some (0, w1))
    (hready : w1.trace.getLast? = some ready_signal)
    (hmmc : cfg.PROVENCORE_SHARED_MMC = true)
    (hrelay : cfg.PROVENCORE_MMC_REMOTE_HOST = true)
    (hbits : 32 ≤ cfg.BITS_PER_LONG)
    (hpage : 2 * cfg.PAGE_SIZE < 2 ^ 32)
    (hentry : cfg.SIZEOF_MMC_ENTRY < 2 ^ 31) :
    sizeof_shdev_infos_t ≤ (w1.shm.infos.descriptors 0).entry_offset ∧
    (w1.shm.infos.descriptors 0).entry_offset = sizeof_shdev_infos_t ∧
    (w1.shm.infos.descriptors 0).entry_offset + (w1.shm.infos.descriptors 0).entry_size ≤
      SHDEV_PAGES * cfg.PAGE_SIZE ∧
    (w1.shm.infos.descriptors 0).data_offset = SHDEV_PAGES * cfg.PAGE_SIZE ∧
    (w1.shm.infos.descriptors 0).data_size = SHDEV_MMC_PAGES * cfg.PAGE_SIZE ∧
    cfg.PAGE_SIZE ∣ (w1.shm.infos.descriptors 0).data_offset ∧
    cfg.PAGE_SIZE ∣ (w1.shm.infos.descriptors 0).data_size ∧
    ∃ w4 : World, w1.trace = w4.trace ++ [.pnc_session_get_mem, ready_signal] ∧
      (env.pnc_session_get_mem w4.trace).1 = 0 ∧
      (w1.shm.infos.descriptors 0).data_offset + (w1.shm.infos.descriptors 0).data_size ≤
        toULong cfg (env.pnc_session_get_mem w4.trace).2 := by
  obtain ⟨-, w4, -, hmem, hc1, hc2, hw, htr⟩ :=
    configure_ready cfg env fuel w w1 0 hconf hready
  obtain ⟨e1, e2, e3, e4, e5, e6⟩ :=
    configure_layout_mmc cfg (w4.emit .pnc_session_get_mem) hmmc hrelay
  have hpow : (2 : Nat) ^ 32 ≤ 2 ^ cfg.BITS_PER_LONG := Nat.pow_le_pow_right (by decide) hbits
  have hp1 : toULong cfg (SHDEV_PAGES * cfg.PAGE_SIZE) = cfg.PAGE_SIZE := by
    unfold toULong SHDEV_PAGES
    rw [Nat.one_mul]
    exact Nat.mod_eq_of_lt (by omega)
  have hp2 : toULong cfg (SHDEV_MMC_PAGES * cfg.PAGE_SIZE) = cfg.PAGE_SIZE := by
    unfold toULong SHDEV_MMC_PAGES
    rw [Nat.one_mul]
    exact Nat.mod_eq_of_lt (by omega)
  have hp3 : toUInt32 cfg.PAGE_SIZE = cfg.PAGE_SIZE := Nat.mod_eq_of_lt (by omega)
  have hs : toUInt32 sizeof_shdev_infos_t = sizeof_shdev_infos_t := by decide
  have hz : toUInt32 cfg.SIZEOF_MMC_ENTRY = cfg.SIZEOF_MMC_ENTRY :=
    Nat.mod_eq_of_lt (by omega)
  have hsz : sizeof_shdev_infos_t = 116 := by decide
  rw [hp1, hp3] at e3
  rw [hp2, hp3] at e4
  rw [hs] at e1
  rw [hz] at e2
  rw [hs, hz] at e5
  rw [hp1, hp2, hp3] at e6
  have e5' : (configure_layout cfg (w4.emit .pnc_session_get_mem)).1.infos_offset =
      sizeof_shdev_infos_t + cfg.SIZEOF_MMC_ENTRY := by
    rw [e5]
    exact Nat.mod_eq_of_lt (by omega)
  have e6' : (configure_layout cfg (w4.emit .pnc_session_get_mem)).1.data_offset =
      cfg.PAGE_SIZE + cfg.PAGE_SIZE := by
    rw [e6]
    exact Nat.mod_eq_of_lt (by omega)
  rw [e5', hp1] at hc1
  rw [e6'] at hc2
  subst hw
  simp only [World.emit_shm, e1, e2, e3, e4, SHDEV_PAGES, SHDEV_MMC_PAGES, Nat.one_mul]
  refine ⟨le_refl _, trivial, hc1, trivial, trivial, dvd_refl _, dvd_refl _, w4, htr, hmem, hc2⟩

/-- C14: after a run of `configure` that returns 0 having signalled
readiness, with the MMC device and its remote host compiled in (and a page
size and entry size within the range of the 32-bit offsets): the MMC entry
block starts at `sizeof(shdev_infos_t)`, right behind the header, and ends at
or before `SHDEV_PAGES*PAGE_SIZE`; the MMC data buffer has
`data_offset = SHDEV_PAGES*PAGE_SIZE` and `data_size =
SHDEV_MMC_PAGES*PAGE_SIZE`, both multiples of `PAGE_SIZE`, and
`data_offset + data_size` is at most the size that `pnc_session_get_mem`
reported for the mapped memory. -/
theorem configure_layout_ordered (cfg : Config) (env : Env) (fuel : Nat) (w w1 : World)
    (hconf : configure cfg env fuel w = some (0, w1))
    (hready : w1.trace.getLast? = some ready_signal)
    (hmmc : cfg.PROVENCORE_SHARED_MMC = true)
    (hrelay : cfg.PROVENCORE_MMC_REMOTE_HOST = true)
    (hbits : 32 ≤ cfg.BITS_PER_LONG)
    (hpage : 2 * cfg.PAGE_SIZE < 2 ^ 32)
    (hentry : cfg.SIZEOF_MMC_ENTRY < 2 ^ 31) :
    sizeof_shdev_infos_t ≤ (w1.shm.infos.descriptors 0).entry_offset ∧
    (w1.shm.infos.descriptors 0).entry_offset = sizeof_shdev_infos_t ∧
    (w1.shm.infos.descriptors 0).entry_offset + (w1.shm.infos.descriptors 0).entry_size ≤
      SHDEV_PAGES * cfg.PAGE_SIZE ∧
    (w1.shm.infos.descriptors 0).data_offset = SHDEV_PAGES * cfg.PAGE_SIZE ∧
    (w1.shm.infos.descriptors 0).data_size = SHDEV_MMC_PAGES * cfg.PAGE_SIZE ∧
    cfg.PAGE_SIZE ∣ (w1.shm.infos.descriptors 0).data_offset ∧
    cfg.PAGE_SIZE ∣ (w1.shm.infos.descriptors 0).data_size ∧
    ∃ w4 : World, w1.trace = w4.trace ++ [.pnc_session_get_mem, ready_signal] ∧
      (env.pnc_session_get_mem w4.trace).1 = 0 ∧
      (w1.shm.infos.descriptors 0).data_offset + (w1.shm.infos.descriptors 0).data_size ≤
        toULong cfg (env.pnc_session_get_mem w4.trace).2 :=
  configure_ready_mmc cfg env fuel w w1 hconf hready hmmc hrelay hbits hpage hentry

/-- Witness of C14: on `cfg64` the MMC entry is at 116, the data buffer at
4096 with 4096 bytes. -/
theorem configure_layout_ordered_witness :
    (worldConfigured.shm.infos.descriptors 0).entry_offset = sizeof_shdev_infos_t ∧
    (worldConfigured.shm.infos.descriptors 0).data_offset = SHDEV_PAGES * cfg64.PAGE_SIZE ∧
    (worldConfigured.shm.infos.descriptors 0).data_size =
      SHDEV_MMC_PAGES * cfg64.PAGE_SIZE :=
  have h := configure_layout_ordered cfg64 (envOk 0 0 0) 1 worldZero worldConfigured rfl
    (by decide) rfl rfl (by decide) (by decide) (by decide)
  ⟨h.2.1, h.2.2.2.1, h.2.2.2.2.1⟩

/-- C15 (as stated it fails): after the configuration of `cfg64`, the MMC
entry region is present (32 bytes) and starts at offset 116, which is not a
multiple of the page size 4096. -/
theorem configure_entry_not_page_aligned :
    (configure cfg64 (envOk 0 0 0) 1 worldZero).map Prod.fst = some 0 ∧
    0 < (worldConfigured.shm.infos.descriptors 0).entry_size ∧
    (worldConfigured.shm.infos.descriptors 0).entry_offset = 116 ∧
    ¬ cfg64.PAGE_SIZE ∣ (worldConfigured.shm.infos.descriptors 0).entry_offset := by
  decide

/-- C15 (amended): after a run of `configure` that returns 0 having
signalled readiness, with the MMC device and its remote host compiled in, the
entry region that `configure` lays out, the one of the MMC descriptor, if
present (`entry_size > 0`), starts at `sizeof(shdev_infos_t)`, right behind
the header, which is not a multiple of `PAGE_SIZE`; it ends at or before
`SHDEV_PAGES*PAGE_SIZE` and so fits within the size that
`pnc_session_get_mem` reported for the mapped memory. -/
theorem configure_entry_region (cfg : Config) (env : Env) (fuel : Nat) (w w1 : World)
    (hconf : configure cfg env fuel w = some (0, w1))
    (hready : w1.trace.getLast? = some ready_signal)
    (hmmc : cfg.PROVENCORE_SHARED_MMC = true)
    (hrelay : cfg.PROVENCORE_MMC_REMOTE_HOST = true)
    (hbits : 32 ≤ cfg.BITS_PER_LONG)
    (hpage : 2 * cfg.PAGE_SIZE < 2 ^ 32)
    (hentry : cfg.SIZEOF_MMC_ENTRY < 2 ^ 31)
    (hpresent : 0 < (w1.shm.infos.descriptors 0).entry_size) :
    (w1.shm.infos.descriptors 0).entry_offset = sizeof_shdev_infos_t ∧
    ¬ cfg.PAGE_SIZE ∣ (w1.shm.infos.descriptors 0).entry_offset ∧
    (w1.shm.infos.descriptors 0).entry_offset + (w1.shm.infos.descriptors 0).entry_size ≤
      SHDEV_PAGES * cfg.PAGE_SIZE ∧
    ∃ w4 : World, w1.trace = w4.trace ++ [.pnc_session_get_mem, ready_signal] ∧
      (env.pnc_session_get_mem w4.trace).1 = 0 ∧
      (w1.shm.infos.descriptors 0).entry_offset + (w1.shm.infos.descriptors 0).entry_size ≤
        toULong cfg (env.pnc_session_get_mem w4.trace).2 := by
  obtain ⟨-, h1, h2, h3, h4, -, -, w4, htr, hmem, h5⟩ :=
    configure_ready_mmc cfg env fuel w w1 hconf hready hmmc hrelay hbits hpage hentry
  have hsz : sizeof_shdev_infos_t = 116 := by decide
  have hpages : SHDEV_PAGES * cfg.PAGE_SIZE = cfg.PAGE_SIZE := by
    unfold SHDEV_PAGES; omega
  rw [hpages] at h2 h3
  refine ⟨h1, ?_, ?_, w4, htr, hmem, ?_⟩
  · intro hdvd
    have hle := Nat.le_of_dvd (by omega) hdvd
    omega
  · rw [hpages]; exact h2
  · rw [h3] at h5
    omega

/-- Witness of C15 (amended): the MMC entry of `cfg64`, 32 bytes at 116. -/
theorem configure_entry_region_witness :
    (worldConfigured.shm.infos.descriptors 0).entry_offset = sizeof_shdev_infos_t ∧
    ¬ cfg64.PAGE_SIZE ∣ (worldConfigured.shm.infos.descriptors 0).entry_offset ∧
    (worldConfigured.shm.infos.descriptors 0).entry_offset +
      (worldConfigured.shm.infos.descriptors 0).entry_size ≤ SHDEV_PAGES * cfg64.PAGE_SIZE :=
  have h := configure_entry_region cfg64 (envOk 0 0 0) 1 worldZero worldConfigured rfl
    (by decide) rfl rfl (by decide) (by decide) (by decide) (by decide)
  ⟨h.1, h.2.1, h.2.2.1⟩

/-! ## Configuration: the failures -/

/-- When the session is opened, allocated, of a supported version and bound
with result `r`, `configure` is its part after the binding. -/
theorem configure_reaches_bound (cfg : Config) (env : Env) (fuel : Nat) (w w4 : World)
    (r : Int)
    (hopen : env.pnc_session_open w.trace = 0)
    (halloc : env.pnc_session_alloc (session_opened w).trace (session_size cfg) = 0)
    (hver : (env.pnc_session_get_version (session_allocated cfg w).trace).1 = 0)
    (hmin : 0x303 ≤ toUInt32 (env.pnc_session_get_version (session_allocated cfg w).trace).2)
    (hbind : session_config env fuel (session_versioned cfg w) = some (r, w4)) :
    configure cfg env fuel w = some (configure_bound cfg env r w4) := by
  unfold configure
  simp only [hopen, halloc, hver, ne_eq, not_true_eq_false, if_false, not_lt.mpr hmin, hbind]

theorem session_config_signals (env : Env) :
    ∀ (fuel : Nat) (w : World) (ret : Int) (w1 : World),
      session_config env fuel w = some (ret, w1) →
        signals_sent w1.trace = signals_sent w.trace
  | 0, w, ret, w1, h => by simp [session_config] at h
  | fuel + 1, w, ret, w1, h => by
    unfold session_config at h
    simp only at h
    split at h
    · have ih := session_config_signals env fuel _ ret w1 h
      simpa [signals_sent_append, signals_sent] using ih
    · simp only [Option.some.injEq, Prod.mk.injEq] at h
      obtain ⟨-, rfl⟩ := h
      simp [signals_sent_append, signals_sent]

/-- C13 (as stated it fails): on `cfg64`, when the mapped memory has 4096
bytes, the data region (ending at 8192) does not fit and `configure` returns
`-EFAULT` after closing the session, without readiness signal; the memory,
zero before, then holds the magic, the device count and the MMC id. -/
theorem configure_check_failed_header_written :
    (configure cfg64 { envOk 0 0 0 with pnc_session_get_mem := fun _ => (0, 4096) } 1
      worldZero).map (fun r => (r.1, r.2.trace)) =
      some (-EFAULT, [.pnc_session_open, .pnc_session_alloc 8192, .pnc_session_get_version,
        .pnc_session_config_by_name, .pnc_session_get_mem, .pnc_session_close]) ∧
    worldZero.shm.infos.magic = 0 ∧
    (configure cfg64 { envOk 0 0 0 with pnc_session_get_mem := fun _ => (0, 4096) } 1
      worldZero).map (fun r => r.2.shm.infos.magic) = some SHDEV_MAGIC_INFOS ∧
    (configure cfg64 { envOk 0 0 0 with pnc_session_get_mem := fun _ => (0, 4096) } 1
      worldZero).map (fun r => r.2.shm.infos.num_devices) = some NUM_DEVICES ∧
    (configure cfg64 { envOk 0 0 0 with pnc_session_get_mem := fun _ => (0, 4096) } 1
      worldZero).map (fun r => (r.2.shm.infos.descriptors 0).id) =
      some (SHDEV_DEVICE_TO_ID MMC_DEVICE) := by
  decide

/-- C13 (amended): when `configure`, with the session opened, allocated, of
a supported version, bound and mapped, fails its layout check (the entry
region ends beyond `SHDEV_PAGES*PAGE_SIZE`, or the data region ends beyond
the mapped size), it returns the non-zero error `-EFAULT`, its last call
closes the session and it sends no signal, so the region is not announced;
the magic, the device count and the ids of the devices compiled in have by
then been written to the mapped memory. -/
theorem configure_layout_check_failed (cfg : Config) (env : Env) (fuel : Nat)
    (w w4 : World)
    (hopen : env.pnc_session_open w.trace = 0)
    (halloc : env.pnc_session_alloc (session_opened w).trace (session_size cfg) = 0)
    (hver : (env.pnc_session_get_version (session_allocated cfg w).trace).1 = 0)
    (hmin : 0x303 ≤ toUInt32 (env.pnc_session_get_version (session_allocated cfg w).trace).2)
    (hbind : session_config env fuel (session_versioned cfg w) = some (0, w4))
    (hmem : (env.pnc_session_get_mem w4.trace).1 = 0)
    (hfail :
      (configure_layout cfg (w4.emit .pnc_session_get_mem)).1.infos_offset >
        toULong cfg (SHDEV_PAGES * cfg.PAGE_SIZE) ∨
      (configure_layout cfg (w4.emit .pnc_session_get_mem)).1.data_offset >
        toULong cfg (env.pnc_session_get_mem w4.trace).2) :
    ∃ w1 : World, configure cfg env fuel w = some (-EFAULT, w1) ∧ -EFAULT ≠ 0 ∧
      w1.trace = w4.trace ++ [.pnc_session_get_mem, .pnc_session_close] ∧
      signals_sent w1.trace = signals_sent w.trace ∧
      w1.shm.infos.magic = SHDEV_MAGIC_INFOS ∧
      w1.shm.infos.num_devices = NUM_DEVICES ∧
      ∀ i : Fin NUM_DEVICES, shared_device cfg i = true →
        (w1.shm.infos.descriptors i).id = SHDEV_DEVICE_TO_ID i.val := by
  have hsig := session_config_signals env fuel _ 0 w4 hbind
  have hsig0 : signals_sent (session_versioned cfg w).trace = signals_sent w.trace := by
    simp [session_versioned, session_allocated, session_opened, signals_sent_append,
      signals_sent]
  refine ⟨((configure_layout cfg (w4.emit .pnc_session_get_mem)).2.emit .pnc_session_close),
    ?_, by decide, ?_, ?_, ?_, ?_, ?_⟩
  · rw [configure_reaches_bound cfg env fuel w w4 0 hopen halloc hver hmin hbind]
    unfold configure_bound
    simp only [ne_eq, not_true_eq_false, if_false, hmem, config_err]
    rcases hfail with h | h
    · rw [if_pos h]
    · by_cases h1 : (configure_layout cfg (w4.emit .pnc_session_get_mem)).1.infos_offset >
          toULong cfg (SHDEV_PAGES * cfg.PAGE_SIZE)
      · rw [if_pos h1]
      · rw [if_neg h1, if_pos h]
  · simp [configure_layout_trace]
  · rw [← hsig0, ← hsig]
    simp only [World.emit_trace, configure_layout_trace]
    rw [signals_sent_append, signals_sent_append]
    show signals_sent w4.trace ++ [] ++ [] = signals_sent w4.trace
    simp
  · exact (configure_layout_header cfg _).1
  · exact (configure_layout_header cfg _).2
  · intro i hi
    exact configure_layout_ids cfg _ i hi

/-- Witness of C13 (amended): `cfg64` with a mapped memory of 4096 bytes. -/
theorem configure_layout_check_failed_witness :
    ∃ w1 : World,
      configure cfg64 { envOk 0 0 0 with pnc_session_get_mem := fun _ => (0, 4096) } 1
        worldZero = some (-EFAULT, w1) ∧
      w1.shm.infos.magic = SHDEV_MAGIC_INFOS :=
  (configure_layout_check_failed cfg64
    { envOk 0 0 0 with pnc_session_get_mem := fun _ => (0, 4096) } 1 worldZero
    ((session_versioned cfg64 worldZero).emit .pnc_session_config_by_name)
    rfl rfl rfl (by decide) rfl rfl (Or.inr (by decide))).imp
    fun _ h => ⟨h.1, h.2.2.2.2.1⟩

/-- C16: with a session that opens and allocates and a version `0x302`,
below the minimum `0x303`, `configure` closes the session and returns 0, not
an error, and the monitor thread goes on to the monitoring loop instead of
returning. -/
theorem configure_old_version_returns_zero :
    (configure cfg64 { envOk 0 0 0 with pnc_session_get_version := fun _ => (0, 0x302) } 1
      worldZero).map (fun r => (r.1, r.2.trace)) =
      some (0, [.pnc_session_open, .pnc_session_alloc 8192, .pnc_session_get_version,
        .pnc_session_close]) ∧
    (shdev_thread_step cfg64
      { envOk 0 0 0 with pnc_session_get_version := fun _ => (0, 0x302) } 1
      .monitor_restart worldZero).map Prod.fst = some .monitoring ∧
    (shdev_thread_run cfg64
      { envOk 0 0 0 with pnc_session_get_version := fun _ => (0, 0x302) } 1 2
      .monitor_restart worldZero).map (fun r => r.2.trace) =
      some [.kthread_should_stop, .pnc_session_open, .pnc_session_alloc 8192,
        .pnc_session_get_version, .pnc_session_close, .kthread_should_stop,
        .pnc_session_wait_event 3] := by
  decide

/-! ## Configuration: the binding of the session -/

theorem retries_count (n : Nat) :
    (retries n ++ [Event.pnc_session_config_by_name]).count .pnc_session_config_by_name
      = n + 1 ∧
    (retries n ++ [Event.pnc_session_config_by_name]).count (.msleep 100) = n := by
  induction n with
  | zero => decide
  | succ k ih =>
    have h : retries (k + 1) ++ [Event.pnc_session_config_by_name] =
        [Event.pnc_session_config_by_name, Event.msleep 100] ++
          (retries k ++ [Event.pnc_session_config_by_name]) := by
      show ([Event.pnc_session_config_by_name, Event.msleep 100] ++ retries k) ++ _ = _
      simp
    constructor
    · have : List.count Event.pnc_session_config_by_name
          [Event.pnc_session_config_by_name, Event.msleep 100] = 1 := by decide
      rw [h, List.count_append, ih.1, this]
      omega
    · have : List.count (Event.msleep 100)
          [Event.pnc_session_config_by_name, Event.msleep 100] = 1 := by decide
      rw [h, List.count_append, ih.2, this]
      omega

/-- The loop `session_config` on `n` transient results followed by `r`. -/
theorem session_config_retries (env : Env) (r : Int) (hr1 : r ≠ -EAGAIN) (hr2 : r ≠ -ENOENT) :
    ∀ (n fuel : Nat) (w : World), n < fuel →
      (∀ k, k < n →
        env.pnc_session_config_by_name (w.trace ++ retries k) = -EAGAIN ∨
        env.pnc_session_config_by_name (w.trace ++ retries k) = -ENOENT) →
      env.pnc_session_config_by_name (w.trace ++ retries n) = r →
      session_config env fuel w =
        some (r, { w with trace := w.trace ++ retries n ++ [.pnc_session_config_by_name] })
  | 0, fuel, w, hf, _, hlast => by
    obtain ⟨f, rfl⟩ : ∃ f, fuel = f + 1 := ⟨fuel - 1, by omega⟩
    unfold session_config
    simp only [retries, List.append_nil] at hlast ⊢
    rw [hlast]
    simp only [hr1, hr2, or_self, if_false]
    rfl
  | n + 1, fuel, w, hf, htrans, hlast => by
    obtain ⟨f, rfl⟩ : ∃ f, fuel = f + 1 := ⟨fuel - 1, by omega⟩
    have h0 := htrans 0 (by omega)
    simp only [retries, List.append_nil] at h0
    unfold session_config
    simp only [h0, if_true]
    have ih := session_config_retries env r hr1 hr2 n f
      ((w.emit .pnc_session_config_by_name).emit (.msleep 100)) (by omega)
      (by
        intro k hk
        have := htrans (k + 1) (by omega)
        simpa [retries] using this)
      (by simpa [retries] using hlast)
    rw [ih]
    simp [retries, World.emit]

/-- After a successful binding the next call of `configure` maps the memory. -/
theorem configure_bound_continues (cfg : Config) (env : Env) (w : World) :
    (w.trace ++ [.pnc_session_get_mem]) <+: (configure_bound cfg env 0 w).2.trace := by
  unfold configure_bound
  simp only [ne_eq, not_true_eq_false, if_false]
  split
  · exact ⟨[.pnc_session_close], by simp [config_err]⟩
  · split
    · exact ⟨[.pnc_session_close], by simp [config_err, configure_layout_trace]⟩
    · split
      · exact ⟨[.pnc_session_close], by simp [config_err, configure_layout_trace]⟩
      · split
        · exact ⟨[ready_signal, .pnc_session_close], by
            simp [config_err, configure_layout_trace, ready_signal]⟩
        · exact ⟨[ready_signal], by simp [configure_layout_trace, ready_signal]⟩

/-- C17: in `configure`, with the session opened, allocated and of a
supported version, when the binding answers `-EAGAIN` or `-ENOENT` `n` times
and then `r`, which is neither, the loop ends (given a bound above `n`) after
exactly `n + 1` bindings, each failed one followed by a sleep of 100 ms; if
`r` is not 0 the session is closed and `configure` returns `r`; if `r = 0`
the configuration goes on with the mapping of the memory. -/
theorem configure_bind_retry (cfg : Config) (env : Env) (fuel n : Nat) (w : World) (r : Int)
    (hopen : env.pnc_session_open w.trace = 0)
    (halloc : env.pnc_session_alloc (session_opened w).trace (session_size cfg) = 0)
    (hver : (env.pnc_session_get_version (session_allocated cfg w).trace).1 = 0)
    (hmin : 0x303 ≤ toUInt32 (env.pnc_session_get_version (session_allocated cfg w).trace).2)
    (htrans : ∀ k, k < n →
      env.pnc_session_config_by_name ((session_versioned cfg w).trace ++ retries k) = -EAGAIN ∨
      env.pnc_session_config_by_name ((session_versioned cfg w).trace ++ retries k) = -ENOENT)
    (hlast : env.pnc_session_config_by_name ((session_versioned cfg w).trace ++ retries n) = r)
    (hr1 : r ≠ -EAGAIN) (hr2 : r ≠ -ENOENT)
    (hfuel : n < fuel) :
    session_config env fuel (session_versioned cfg w) = some (r, session_bound cfg w n) ∧
    (session_bound cfg w n).trace =
      w.trace ++ [.pnc_session_open, .pnc_session_alloc (session_size cfg),
        .pnc_session_get_version] ++ retries n ++ [.pnc_session_config_by_name] ∧
    (retries n ++ [Event.pnc_session_config_by_name]).count .pnc_session_config_by_name
      = n + 1 ∧
    (retries n ++ [Event.pnc_session_config_by_name]).count (.msleep 100) = n ∧
    (r ≠ 0 →
      configure cfg env fuel w =
        some (r, (session_bound cfg w n).emit .pnc_session_close)) ∧
    (r = 0 →
      ∃ ret w1, configure cfg env fuel w = some (ret, w1) ∧
        ((session_bound cfg w n).trace ++ [.pnc_session_get_mem]) <+: w1.trace) := by
  have hloop := session_config_retries env r hr1 hr2 n fuel (session_versioned cfg w) hfuel
    htrans hlast
  have hconf := configure_reaches_bound cfg env fuel w (session_bound cfg w n) r hopen halloc
    hver hmin hloop
  refine ⟨hloop, ?_, (retries_count n).1, (retries_count n).2, ?_, ?_⟩
  · simp [session_bound, session_versioned, session_allocated, session_opened]
  · intro h0
    rw [hconf]
    unfold configure_bound
    rw [if_pos h0]
    rfl
  · intro h0
    subst h0
    exact ⟨_, _, hconf, configure_bound_continues cfg env _⟩

/-- Witness of C17: the binding answers `-EAGAIN`, `-ENOENT`, then
`-ETIMEDOUT`; `configure` binds three times, sleeps twice, closes the session
and returns `-ETIMEDOUT`. -/
theorem configure_bind_retry_witness :
    configure cfg64 (envBusy (-ETIMEDOUT)) 3 worldZero =
      some (-ETIMEDOUT, (session_bound cfg64 worldZero 2).emit .pnc_session_close) ∧
    ((session_bound cfg64 worldZero 2).emit .pnc_session_close).trace =
      [.pnc_session_open, .pnc_session_alloc 8192, .pnc_session_get_version,
        .pnc_session_config_by_name, .msleep 100, .pnc_session_config_by_name, .msleep 100,
        .pnc_session_config_by_name, .pnc_session_close] :=
  ⟨(configure_bind_retry cfg64 (envBusy (-ETIMEDOUT)) 3 2 worldZero (-ETIMEDOUT)
      rfl rfl rfl (by decide)
      (by intro k hk; interval_cases k <;> decide)
      (by decide) (by decide) (by decide) (by decide)).2.2.2.2.1 (by decide),
    by decide⟩

/-! ## The monitor thread -/

theorem handle_signal_prefix (cfg : Config) (env : Env) (w : World) :
    w.trace <+: (handle_signal cfg env w).trace := by
  unfold handle_signal schedule_work
  simp only
  split
  · exact ⟨_, rfl⟩
  · split <;> split <;> split <;>
      simp only [World.emit_trace, List.append_assoc] <;> exact ⟨_, rfl⟩

/-- C18: one iteration of the monitoring loop of `shdev_thread`, no stop
being requested, when `pnc_session_wait_event` returns a non-zero `r`.  For
`r = -ENODEV` the session is closed and the thread is at `monitor_restart`;
for `r = -EPIPE` the thread is at `monitor_restart`, nothing being closed; in
neither case has the thread returned.  For every other `r` the thread is at
the top of the monitoring loop, having closed nothing and handled no signal.
From `monitor_restart` the thread returns 0 when a stop is requested and
calls `configure` otherwise; from the top of the monitoring loop, no stop
being requested, the wait is called again. -/
theorem shdev_thread_wait_error (cfg : Config) (env : Env) (fuel : Nat) (w : World) (r : Int)
    (hstop : env.kthread_should_stop w.trace = false)
    (hwait : (env.pnc_session_wait_event (w.trace ++ [.kthread_should_stop])).1 = r)
    (hr : r ≠ 0) :
    (r = -ENODEV →
      shdev_thread_step cfg env fuel .monitoring w =
        some (.monitor_restart,
          { w with trace := w.trace ++ [.kthread_should_stop,
              .pnc_session_wait_event (cfg.EVENT_PENDING_SIGNAL ||| cfg.EVENT_PENDING_REQUEST),
              .pnc_session_close] })) ∧
    (r = -EPIPE →
      shdev_thread_step cfg env fuel .monitoring w =
        some (.monitor_restart,
          { w with trace := w.trace ++ [.kthread_should_stop,
              .pnc_session_wait_event
                (cfg.EVENT_PENDING_SIGNAL ||| cfg.EVENT_PENDING_REQUEST)] })) ∧
    (r ≠ -ENODEV → r ≠ -EPIPE →
      shdev_thread_step cfg env fuel .monitoring w =
        some (.monitoring,
          { w with trace := w.trace ++ [.kthread_should_stop,
              .pnc_session_wait_event
                (cfg.EVENT_PENDING_SIGNAL ||| cfg.EVENT_PENDING_REQUEST)] })) ∧
    (∀ v : World, env.kthread_should_stop v.trace = true →
      shdev_thread_step cfg env fuel .monitor_restart v =
        some (.exited 0, v.emit .kthread_should_stop)) ∧
    (∀ v : World, env.kthread_should_stop v.trace = false →
      shdev_thread_step cfg env fuel .monitor_restart v =
        (configure cfg env fuel (v.emit .kthread_should_stop)).map
          fun p => (if p.1 ≠ 0 then ThreadState.exited (-1) else ThreadState.monitoring, p.2)) ∧
    (∀ v : World, env.kthread_should_stop v.trace = false →
      ∃ st v1, shdev_thread_step cfg env fuel .monitoring v = some (st, v1) ∧
        (v.trace ++ [.kthread_should_stop,
          .pnc_session_wait_event (cfg.EVENT_PENDING_SIGNAL ||| cfg.EVENT_PENDING_REQUEST)])
          <+: v1.trace) := by
  refine ⟨?_, ?_, ?_, ?_, ?_, ?_⟩
  · intro h
    subst h
    unfold shdev_thread_step
    simp only [hstop, Bool.false_eq_true, if_false, World.emit_trace, hwait, ne_eq, hr,
      not_false_eq_true, if_true]
    simp [World.emit]
  · intro h
    subst h
    unfold shdev_thread_step
    simp only [hstop, Bool.false_eq_true, if_false, World.emit_trace, hwait, ne_eq, hr,
      not_false_eq_true, if_true]
    rw [if_neg (by decide)]
    simp [World.emit]
  · intro h1 h2
    unfold shdev_thread_step
    simp only [hstop, Bool.false_eq_true, if_false, World.emit_trace, hwait, ne_eq, hr,
      not_false_eq_true, if_true, h1, h2]
    simp [World.emit]
  · intro v hv
    unfold shdev_thread_step
    simp only [hv, if_true]
  · intro v hv
    unfold shdev_thread_step
    simp only [hv, Bool.false_eq_true, if_false]
    cases hc : configure cfg env fuel (v.emit .kthread_should_stop) with
    | none => rfl
    | some p =>
      obtain ⟨ret, v2⟩ := p
      simp only [Option.map_some']
      split <;> rfl
  · intro v hv
    unfold shdev_thread_step
    simp only [hv, Bool.false_eq_true, if_false, World.emit_trace]
    split
    · split
      · exact ⟨_, _, rfl, ⟨[.pnc_session_close], by simp⟩⟩
      · split
        · exact ⟨_, _, rfl, ⟨[], by simp⟩⟩
        · exact ⟨_, _, rfl, ⟨[], by simp⟩⟩
    · split
      · refine ⟨_, _, rfl, ?_⟩
        have hp := handle_signal_prefix cfg env
          ((v.emit .kthread_should_stop).emit
            (.pnc_session_wait_event (cfg.EVENT_PENDING_SIGNAL ||| cfg.EVENT_PENDING_REQUEST)))
        simpa using hp
      · exact ⟨_, _, rfl, ⟨[], by simp⟩⟩

/-- Witness of C18: on a configured session whose wait returns `-EPIPE`, the
thread goes back to `monitor_restart`. -/
theorem shdev_thread_wait_error_witness :
    (shdev_thread_step cfg64
      { envOk 0 0 0 with pnc_session_wait_event := fun _ => (-EPIPE, 0) } 1
      .monitoring worldConfigured).map Prod.fst = some .monitor_restart :=
  congrArg (Option.map Prod.fst)
    ((shdev_thread_wait_error cfg64
      { envOk 0 0 0 with pnc_session_wait_event := fun _ => (-EPIPE, 0) } 1
      worldConfigured (-EPIPE) rfl rfl (by decide)).2.1 rfl)

/-! ## The module exit -/

/-- C19 (as stated it fails): on a configured session, `shdev_exit` closes
the session before it stops the thread. -/
theorem shdev_exit_closes_before_stop :
    (shdev_exit cfg64 worldConfigured).trace =
      worldConfigured.trace ++ [.pnc_session_close, .kthread_stop, .flush_work MMC_DEVICE,
        .flush_work ENET_DEVICE, .flush_work SPI_DEVICE] ∧
    List.indexOf Event.pnc_session_close (shdev_exit cfg64 worldConfigured).trace <
      List.indexOf Event.kthread_stop (shdev_exit cfg64 worldConfigured).trace := by
  decide

/-- C19 (amended): `shdev_exit` performs its calls in this order: the close
of the session, when one has been opened; then the stop of the monitor
thread; then one `flush_work` for each device compiled in, MMC, network, SPI.
The stop of the thread never precedes the close of the session. -/
theorem shdev_exit_order (cfg : Config) (w : World) :
    (shdev_exit cfg w).trace =
      w.trace ++ (if w.statics._shdev_session then [.pnc_session_close] else []) ++
        [.kthread_stop] ++
        (if cfg.PROVENCORE_SHARED_MMC then [.flush_work MMC_DEVICE] else []) ++
        (if cfg.PROVENCORE_SHARED_ENET then [.flush_work ENET_DEVICE] else []) ++
        (if cfg.PROVENCORE_SHARED_SPI then [.flush_work SPI_DEVICE] else []) := by
  unfold shdev_exit
  cases w.statics._shdev_session <;> cases cfg.PROVENCORE_SHARED_MMC <;>
    cases cfg.PROVENCORE_SHARED_ENET <;> cases cfg.PROVENCORE_SHARED_SPI <;>
    simp [World.emit]

/-! ## Operation codes that are not handled -/

/-- C20: in `device_work_func`, for a device whose descriptor carries the
expected id, when the operation code of the request is none of the handled
ones (0 to 4, and 5 when the RPMB relay is compiled in), no operation is
called: the only call is the completion signal of the device, and the
response written has the operation and device of the request, `status = 1`
and `value = 38` (`ENOSYS`); nothing else changes. -/
theorem device_work_func_unhandled (cfg : Config) (env : Env) (dev : shdev_t) (w : World)
    (i : Fin NUM_DEVICES) (hi : SHDEV_ID_TO_DEVICE dev.id = i.val)
    (hid : (w.shm.infos.descriptors i).id = dev.id)
    (hop : 4 < (w.shm.infos.descriptors i).s_to_ns.operation)
    (hrpmb : cfg.PROVENCORE_MMC_USE_RPMB = true →
      (w.shm.infos.descriptors i).s_to_ns.operation ≠ RPMB_DEVICE) :
    (device_work_func cfg env dev w).trace =
      w.trace ++ [.pnc_session_send_signal dev.signal_msg] ∧
    (device_work_func cfg env dev w).shm.infos.descriptors i =
      { w.shm.infos.descriptors i with
        ns_to_s :=
          { operation := (w.shm.infos.descriptors i).s_to_ns.operation,
            device := (w.shm.infos.descriptors i).s_to_ns.device,
            status := 1,
            value := 38 } } ∧
    (∀ j, j ≠ i →
      (device_work_func cfg env dev w).shm.infos.descriptors j = w.shm.infos.descriptors j) ∧
    (device_work_func cfg env dev w).shm.mmc_entry = w.shm.mmc_entry ∧
    (device_work_func cfg env dev w).shm.data = w.shm.data ∧
    (device_work_func cfg env dev w).statics = w.statics := by
  have hsw : device_work_switch cfg env dev (w.shm.infos.descriptors i) w = (-ENOSYS, w) := by
    unfold device_work_switch
    have h0 : (w.shm.infos.descriptors i).s_to_ns.operation ≠ SUSPEND_DEVICE := by
      unfold SUSPEND_DEVICE; omega
    have h1 : (w.shm.infos.descriptors i).s_to_ns.operation ≠ RESUME_DEVICE := by
      unfold RESUME_DEVICE; omega
    have h2 : (w.shm.infos.descriptors i).s_to_ns.operation ≠ SELECT_DEVICE := by
      unfold SELECT_DEVICE; omega
    have h3 : (w.shm.infos.descriptors i).s_to_ns.operation ≠ READ_DEVICE := by
      unfold READ_DEVICE; omega
    have h4 : (w.shm.infos.descriptors i).s_to_ns.operation ≠ WRITE_DEVICE := by
      unfold WRITE_DEVICE; omega
    have h5 : ¬ (cfg.PROVENCORE_MMC_USE_RPMB = true ∧
        (w.shm.infos.descriptors i).s_to_ns.operation = RPMB_DEVICE) :=
      fun h => hrpmb h.1 h.2
    simp only [h0, h1, h2, h3, h4, h5, if_false]
  have hval : status_value (-ENOSYS) = 38 := by decide
  rw [device_work_func_matching cfg env dev w i hi hid, hsw]
  simp only [World.emit_trace, World.emit_shm, World.emit_statics, hval, Function.update_same]
  refine ⟨trivial, trivial, ?_, trivial, trivial, trivial⟩
  intro j hj
  exact Function.update_noteq hj _ _

/-- Witness of C20: the operation code 9 sent to the MMC device. -/
theorem device_work_func_unhandled_witness :
    (device_work_func cfg64 (envOk 0 0 0) (_shdev_devices cfg64 0)
      (worldOf 9 (userEntry 0 0) (fun _ => 0))).trace =
      [] ++ [.pnc_session_send_signal (_shdev_devices cfg64 0).signal_msg] ∧
    ((device_work_func cfg64 (envOk 0 0 0) (_shdev_devices cfg64 0)
      (worldOf 9 (userEntry 0 0) (fun _ => 0))).shm.infos.descriptors 0).ns_to_s.value = 38 :=
  have h := device_work_func_unhandled cfg64 (envOk 0 0 0) (_shdev_devices cfg64 0)
    (worldOf 9 (userEntry 0 0) (fun _ => 0)) 0 (by decide) (by decide) (by decide)
    (by decide)
  ⟨h.1, congrArg (fun d => d.ns_to_s.value) h.2.1⟩

/-! ## Operations without an entry in the table -/

/-- C21: in `device_work_func`, for a device whose descriptor carries the
expected id, when the operation code of the request is a handled one and the
operation table of the device has a null pointer for it (as the tables of the
network and SPI devices have for select, read, write and rpmb), no operation
is called: the only call is the completion signal, and the response written
has the operation and device of the request, `status = 1` and `value = 0`;
nothing else changes. -/
theorem device_work_func_null_entry (cfg : Config) (env : Env) (dev : shdev_t) (w : World)
    (i : Fin NUM_DEVICES) (hi : SHDEV_ID_TO_DEVICE dev.id = i.val)
    (hid : (w.shm.infos.descriptors i).id = dev.id)
    (hnull :
      ((w.shm.infos.descriptors i).s_to_ns.operation = SUSPEND_DEVICE ∧
        dev.ops.suspend.isNone = true) ∨
      ((w.shm.infos.descriptors i).s_to_ns.operation = RESUME_DEVICE ∧
        dev.ops.resume.isNone = true) ∨
      ((w.shm.infos.descriptors i).s_to_ns.operation = SELECT_DEVICE ∧
        dev.ops.select.isNone = true) ∨
      ((w.shm.infos.descriptors i).s_to_ns.operation = READ_DEVICE ∧
        dev.ops.read.isNone = true) ∨
      ((w.shm.infos.descriptors i).s_to_ns.operation = WRITE_DEVICE ∧
        dev.ops.write.isNone = true) ∨
      (cfg.PROVENCORE_MMC_USE_RPMB = true ∧
        (w.shm.infos.descriptors i).s_to_ns.operation = RPMB_DEVICE ∧
        dev.ops.rpmb.isNone = true)) :
    (device_work_func cfg env dev w).trace =
      w.trace ++ [.pnc_session_send_signal dev.signal_msg] ∧
    (device_work_func cfg env dev w).shm.infos.descriptors i =
      { w.shm.infos.descriptors i with
        ns_to_s :=
          { operation := (w.shm.infos.descriptors i).s_to_ns.operation,
            device := (w.shm.infos.descriptors i).s_to_ns.device,
            status := 1,
            value := 0 } } ∧
    (∀ j, j ≠ i →
      (device_work_func cfg env dev w).shm.infos.descriptors j = w.shm.infos.descriptors j) ∧
    (device_work_func cfg env dev w).shm.mmc_entry = w.shm.mmc_entry ∧
    (device_work_func cfg env dev w).shm.data = w.shm.data ∧
    (device_work_func cfg env dev w).statics = w.statics := by
  have hsw : device_work_switch cfg env dev (w.shm.infos.descriptors i) w = (0, w) := by
    unfold device_work_switch
    rcases hnull with ⟨h, hn⟩ | ⟨h, hn⟩ | ⟨h, hn⟩ | ⟨h, hn⟩ | ⟨h, hn⟩ | ⟨hc, h, hn⟩ <;>
      rw [Option.isNone_iff_eq_none] at hn <;>
      simp [*, call_op0, call_op1, SUSPEND_DEVICE, RESUME_DEVICE, SELECT_DEVICE,
        READ_DEVICE, WRITE_DEVICE, RPMB_DEVICE]
  have hval : status_value 0 = 0 := by decide
  rw [device_work_func_matching cfg env dev w i hi hid, hsw]
  simp only [World.emit_trace, World.emit_shm, World.emit_statics, hval, Function.update_same]
  refine ⟨trivial, trivial, ?_, trivial, trivial, trivial⟩
  intro j hj
  exact Function.update_noteq hj _ _

/-- Witness of C21: a select request sent to the network device. -/
theorem device_work_func_null_entry_witness :
    (device_work_func cfg64 (envOk 0 0 0) (_shdev_devices cfg64 1)
      (worldOf SELECT_DEVICE (userEntry 0 0) (fun _ => 0))).trace =
      [] ++ [.pnc_session_send_signal (_shdev_devices cfg64 1).signal_msg] ∧
    ((device_work_func cfg64 (envOk 0 0 0) (_shdev_devices cfg64 1)
      (worldOf SELECT_DEVICE (userEntry 0 0) (fun _ => 0))).shm.infos.descriptors 1).ns_to_s
      = { operation := SELECT_DEVICE, device := 1, status := 1, value := 0 } :=
  have h := device_work_func_null_entry cfg64 (envOk 0 0 0) (_shdev_devices cfg64 1)
    (worldOf SELECT_DEVICE (userEntry 0 0) (fun _ => 0)) 1 (by decide) (by decide)
    (Or.inr (Or.inr (Or.inl ⟨rfl, rfl⟩)))
  ⟨h.1, congrArg shdev_desc_t.ns_to_s h.2.1⟩

/-! ## Success of a transfer -/

/-- The result of the read and write cases of `mmcblk_remote_host`, once the
length check has passed and the device node is open, for a transfer that
reports `n`. -/
theorem mmcblk_remote_host_rw_value (cfg : Config) (env : Env) (desc : shdev_desc_t)
    (w : World) (n : Int)
    (hid : desc.id = SHDEV_DEVICE_TO_ID MMC_DEVICE)
    (hpart : w.shm.mmc_entry.hwpart = MMC_PART_USER)
    (hop : desc.s_to_ns.operation = READ_DEVICE ∨ desc.s_to_ns.operation = WRITE_DEVICE)
    (hlen : toUInt32 w.shm.mmc_entry.length ≤ desc.data_size)
    (hopen : env.filp_open w.trace .PROVENCORE_MMC_DEVICE = none)
    (hn : (if desc.s_to_ns.operation = WRITE_DEVICE then
            env.kernel_write (w.trace ++ [.filp_open .PROVENCORE_MMC_DEVICE])
              (toInt64 w.shm.mmc_entry.offset) (toULong cfg w.shm.mmc_entry.length)
          else
            env.kernel_read (w.trace ++ [.filp_open .PROVENCORE_MMC_DEVICE])
              (toInt64 w.shm.mmc_entry.offset) (toULong cfg w.shm.mmc_entry.length)) = n) :
    (mmcblk_remote_host cfg env desc w).1 =
      if n > 0 ∧ toULong cfg n.toNat = toULong cfg w.shm.mmc_entry.length then 0
      else if n ≠ 0 then toInt32 n else -EACCES := by
  have hsel : desc.s_to_ns.operation ≠ SELECT_DEVICE := by
    rcases hop with h | h <;> rw [h] <;> decide
  unfold mmcblk_remote_host mmcblk_remote_host_rw
  simp only [hid, hpart, ne_eq, not_true_eq_false, if_false, hsel, hop, if_true,
    MMC_PART_USER, MMC_PART_RPMB, OfNat.zero_ne_ofNat, and_false, not_lt.mpr hlen,
    World.emit_trace, World.emit_shm, hopen, decide_eq_true_eq]
  by_cases hw : desc.s_to_ns.operation = WRITE_DEVICE
  · simp only [hw, if_true] at hn ⊢
    rw [hn]
  · simp only [hw, if_false] at hn ⊢
    rw [hn]

/-- C22: in the read and write cases of `mmcblk_remote_host`, once the
length check has passed and the device node is open, for a transfer that
reports `n` (a count or an error within the range of `int`): the result is 0
if and only if `n` is positive and equal to the length handed to the
transfer, which is the requested length when that fits a `size_t`; a request
of length 0 whose transfer reports 0 returns `-EACCES`, and a request of
length 0 never returns 0. -/
theorem mmcblk_remote_host_success_iff (cfg : Config) (env : Env) (desc : shdev_desc_t)
    (w : World) (n : Int)
    (hid : desc.id = SHDEV_DEVICE_TO_ID MMC_DEVICE)
    (hpart : w.shm.mmc_entry.hwpart = MMC_PART_USER)
    (hop : desc.s_to_ns.operation = READ_DEVICE ∨ desc.s_to_ns.operation = WRITE_DEVICE)
    (hlen : toUInt32 w.shm.mmc_entry.length ≤ desc.data_size)
    (hopen : env.filp_open w.trace .PROVENCORE_MMC_DEVICE = none)
    (hn : (if desc.s_to_ns.operation = WRITE_DEVICE then
            env.kernel_write (w.trace ++ [.filp_open .PROVENCORE_MMC_DEVICE])
              (toInt64 w.shm.mmc_entry.offset) (toULong cfg w.shm.mmc_entry.length)
          else
            env.kernel_read (w.trace ++ [.filp_open .PROVENCORE_MMC_DEVICE])
              (toInt64 w.shm.mmc_entry.offset) (toULong cfg w.shm.mmc_entry.length)) = n)
    (hbits : 32 ≤ cfg.BITS_PER_LONG)
    (hlo : -(2 ^ 31) ≤ n) (hhi : n < 2 ^ 31) :
    ((mmcblk_remote_host cfg env desc w).1 = 0 ↔
      0 < n ∧ n = toULong cfg w.shm.mmc_entry.length) ∧
    (w.shm.mmc_entry.length < 2 ^ cfg.BITS_PER_LONG →
      ((mmcblk_remote_host cfg env desc w).1 = 0 ↔ 0 < n ∧ n = w.shm.mmc_entry.length)) ∧
    (w.shm.mmc_entry.length = 0 → n = 0 → (mmcblk_remote_host cfg env desc w).1 = -EACCES) ∧
    (w.shm.mmc_entry.length = 0 → (mmcblk_remote_host cfg env desc w).1 ≠ 0) := by
  have hres := mmcblk_remote_host_rw_value cfg env desc w n hid hpart hop hlen hopen hn
  have h32 : toInt32 n = n := by unfold toInt32; omega
  have hpow : (2 : Nat) ^ 32 ≤ 2 ^ cfg.BITS_PER_LONG := Nat.pow_le_pow_right (by decide) hbits
  have hcast : 0 < n → toULong cfg n.toNat = n.toNat := by
    intro h0
    apply Nat.mod_eq_of_lt
    have : n.toNat < 2 ^ 31 := by omega
    omega
  have hiff : (mmcblk_remote_host cfg env desc w).1 = 0 ↔
      0 < n ∧ n = toULong cfg w.shm.mmc_entry.length := by
    rw [hres]
    constructor
    · intro h
      by_cases hc : n > 0 ∧ toULong cfg n.toNat = toULong cfg w.shm.mmc_entry.length
      · refine ⟨hc.1, ?_⟩
        have := hcast hc.1
        have h2 := hc.2
        rw [this] at h2
        omega
      · rw [if_neg hc] at h
        by_cases h0 : n = 0
        · rw [if_neg (by simpa using h0)] at h
          exact absurd h (by decide)
        · rw [if_pos h0, h32] at h
          exact absurd h h0
    · intro h
      have hc : n > 0 ∧ toULong cfg n.toNat = toULong cfg w.shm.mmc_entry.length := by
        refine ⟨h.1, ?_⟩
        rw [hcast h.1]
        omega
      rw [if_pos hc]
  refine ⟨hiff, ?_, ?_, ?_⟩
  · intro hfit
    have : toULong cfg w.shm.mmc_entry.length = w.shm.mmc_entry.length :=
      Nat.mod_eq_of_lt hfit
    rw [hiff, this]
  · intro _ h0
    rw [hres]
    subst h0
    simp
  · intro hl hz
    have h := hiff.mp hz
    have : toULong cfg w.shm.mmc_entry.length = 0 := by
      rw [hl]; exact Nat.zero_mod _
    rw [this] at h
    omega

/-- Witness of C22: a read of length 0 whose transfer reports 0 bytes. -/
theorem mmcblk_remote_host_success_iff_witness :
    (mmcblk_remote_host cfg64 (envOk 0 0 0) (descOf MMC_DEVICE READ_DEVICE)
      (worldOf READ_DEVICE (userEntry 0 0) (fun _ => 0))).1 = -EACCES ∧
    (mmcblk_remote_host cfg64 (envOk 0 0 0) (descOf MMC_DEVICE READ_DEVICE)
      (worldOf READ_DEVICE (userEntry 0 0) (fun _ => 0))).1 ≠ 0 :=
  have h := mmcblk_remote_host_success_iff cfg64 (envOk 0 0 0)
    (descOf MMC_DEVICE READ_DEVICE) (worldOf READ_DEVICE (userEntry 0 0) (fun _ => 0)) 0
    (by decide) (by decide) (by decide) (by decide) rfl rfl (by decide) (by decide)
    (by decide)
  ⟨h.2.2.1 rfl rfl, h.2.2.2 rfl⟩

/-! ## The minor number derived from the device path -/

/-- The digit loop of `_parse_integer` consumes a run of digits that is not
followed by a digit. -/
theorem parse_integer_digits (ds rest : List Char)
    (hds : ∀ c ∈ ds, c.isDigit = true)
    (hrest : ∀ c, rest.head? = some c → c.isDigit = false) :
    ∀ acc n, _parse_integer (ds ++ rest) acc n =
      (ds.foldl (fun acc c => acc * 10 + (c.toNat - 48)) acc, n + ds.length, rest) := by
  induction ds with
  | nil =>
    intro acc n
    cases rest with
    | nil => rfl
    | cons c cs =>
      have hc := hrest c rfl
      simp [_parse_integer, hc]
  | cons d ds ih =>
    intro acc n
    have hd : d.isDigit = true := hds d (List.mem_cons_self _ _)
    have ih1 := ih (fun c hc => hds c (List.mem_cons_of_mem _ hc))
    simp only [List.cons_append, _parse_integer, hd, if_true, List.foldl_cons,
      List.length_cons]
    rw [show ds.append rest = ds ++ rest from rfl, ih1,
      show n + 1 + ds.length = n + (ds.length + 1) by omega]

/-- Every character of `trailing_digits` is a digit. -/
theorem trailing_digits_isDigit (s : List Char) :
    ∀ c ∈ trailing_digits s, c.isDigit = true := by
  intro c hc
  unfold trailing_digits at hc
  rw [List.mem_reverse] at hc
  exact List.mem_takeWhile_imp hc

/-- The run of digits ending a string that ends with a digit. -/
theorem trailing_digits_append_digit (body : List Char) (c : Char) (hc : c.isDigit = true) :
    trailing_digits (body ++ [c]) = trailing_digits body ++ [c] := by
  unfold trailing_digits
  simp [List.takeWhile_cons, hc]

/-- The string at `p` for a non-empty path. -/
theorem devname_suffix_append (body : List Char) (c : Char) :
    devname_suffix (body ++ [c]) = trailing_digits body ++ [c] := by
  unfold devname_suffix trailing_digits
  simp

/-- The conversion `kstrtol` on a non-empty run of digits, possibly followed
by one newline: an error, or the decimal value; the decimal value when it
fits 31 bits. -/
theorem kstrtol_digits (cfg : Config) (ds rest : List Char)
    (hne : ds ≠ []) (hds : ∀ c ∈ ds, c.isDigit = true)
    (hrest : rest = [] ∨ rest = [Char.ofNat 10]) :
    ((∃ e, kstrtol cfg (ds ++ rest) = .error e) ∨
      kstrtol cfg (ds ++ rest) = .ok (decimal_value ds)) ∧
    (32 ≤ cfg.BITS_PER_LONG → decimal_value ds < 2 ^ 31 →
      kstrtol cfg (ds ++ rest) = .ok (decimal_value ds)) := by
  have hnl : (Char.ofNat 10).isDigit = false := by decide
  have hr : ∀ c, rest.head? = some c → c.isDigit = false := by
    intro c h
    rcases hrest with h0 | h0
    · rw [h0] at h; cases h
    · rw [h0] at h
      cases h
      exact hnl
  have hp := parse_integer_digits ds rest hds hr 0 0
  obtain ⟨d, ds1, rfl⟩ := List.exists_cons_of_ne_nil hne
  have hd : d.isDigit = true := hds d (List.mem_cons_self _ _)
  have hminus : d ≠ '-' := by
    intro h; rw [h] at hd; exact absurd hd (by decide)
  have hplus : d ≠ '+' := by
    intro h; rw [h] at hd; exact absurd hd (by decide)
  have hrest1 : (if rest.head? = some (Char.ofNat 10) then rest.tail else rest) = [] := by
    rcases hrest with h0 | h0 <;> rw [h0] <;> simp
  have hk : _kstrtoull (d :: ds1 ++ rest) =
      if 2 ^ 64 ≤ decimal_value (d :: ds1) then .error (-ERANGE)
      else .ok (decimal_value (d :: ds1)) := by
    unfold _kstrtoull
    rw [hp]
    simp only [hrest1, decimal_value, List.length_cons, ne_eq, not_true_eq_false, if_false]
    split
    · rfl
    · simp
  have hll : kstrtoll (d :: ds1 ++ rest) =
      if 2 ^ 63 ≤ decimal_value (d :: ds1) then .error (-ERANGE)
      else .ok (decimal_value (d :: ds1) : Int) := by
    unfold kstrtoll
    have h1 : (d :: ds1 ++ rest).head? = some d := rfl
    have h2 : ¬ (some d = some '-') := by simpa using hminus
    have h3 : ¬ (some d = some '+') := by simpa using hplus
    simp only [h1, h2, h3, if_false]
    rw [hk]
    by_cases h64 : 2 ^ 64 ≤ decimal_value (d :: ds1)
    · have h63 : 2 ^ 63 ≤ decimal_value (d :: ds1) := le_trans (by decide) h64
      rw [if_pos h64, if_pos h63]
    · rw [if_neg h64]
  constructor
  · unfold kstrtol
    rw [hll]
    by_cases h63 : 2 ^ 63 ≤ decimal_value (d :: ds1)
    · left
      rw [if_pos h63]
      exact ⟨_, rfl⟩
    · rw [if_neg h63]
      simp only []
      split
      · right; rfl
      · left; exact ⟨_, rfl⟩
  · intro hbits hv
    unfold kstrtol
    rw [hll]
    have h63 : ¬ (2 ^ 63 ≤ decimal_value (d :: ds1)) := by
      have : (2 : Nat) ^ 31 ≤ 2 ^ 63 := by decide
      omega
    rw [if_neg h63]
    simp only []
    have hpow : (2 : Int) ^ 31 ≤ 2 ^ (cfg.BITS_PER_LONG - 1) :=
      pow_le_pow_right₀ (by decide) (by omega)
    have hv1 : (decimal_value (d :: ds1) : Int) < 2 ^ 31 := by exact_mod_cast hv
    have h0 : (0 : Int) ≤ decimal_value (d :: ds1) := Int.ofNat_nonneg _
    rw [if_pos ⟨by omega, by omega⟩]

/-- The conversion `kstrtol` fails on a string whose last character is not a
digit, unless that character is a newline that follows a digit. -/
theorem kstrtol_not_digit (cfg : Config) (ds : List Char) (c : Char)
    (hds : ∀ c ∈ ds, c.isDigit = true) (hc : c.isDigit = false)
    (hnl : c = Char.ofNat 10 → ds = []) :
    ∃ e, kstrtol cfg (ds ++ [c]) = .error e := by
  have hr : ∀ x, [c].head? = some x → x.isDigit = false := by
    intro x h; cases h; exact hc
  have hp := parse_integer_digits ds [c] hds hr 0 0
  have hull : ∀ s, _parse_integer s 0 0 = (0, 0, s) → _kstrtoull s = .error (-EINVAL) := by
    intro s h
    unfold _kstrtoull
    rw [h]
    simp
  have herr : ∀ s e, kstrtoll s = .error e → ∃ e1, kstrtol cfg s = .error e1 := by
    intro s e h
    unfold kstrtol
    rw [h]
    exact ⟨_, rfl⟩
  cases ds with
  | nil =>
    have hp0 : _parse_integer [c] 0 0 = (0, 0, [c]) := hp
    by_cases hm : c = '-'
    · subst hm
      exact herr _ (-EINVAL) rfl
    · by_cases hpl : c = '+'
      · subst hpl
        exact herr _ (-EINVAL) rfl
      · apply herr _ (-EINVAL)
        unfold kstrtoll
        have h1 : ([] ++ [c] : List Char).head? = some c := rfl
        have h2 : ¬ (some c = some '-') := by simpa using hm
        have h3 : ¬ (some c = some '+') := by simpa using hpl
        simp only [h1, h2, h3, if_false]
        rw [show ([] ++ [c] : List Char) = [c] from rfl, hull [c] hp0]
  | cons d ds1 =>
    have hd : d.isDigit = true := hds d (List.mem_cons_self _ _)
    have hminus : d ≠ '-' := by
      intro h; rw [h] at hd; exact absurd hd (by decide)
    have hplus : d ≠ '+' := by
      intro h; rw [h] at hd; exact absurd hd (by decide)
    have hcn : c ≠ Char.ofNat 10 := fun h => absurd (hnl h) (by simp)
    have hk : ∃ e, _kstrtoull (d :: ds1 ++ [c]) = .error e := by
      unfold _kstrtoull
      rw [hp]
      have h4 : ¬ (some c = some (Char.ofNat 10)) := by simpa using hcn
      simp only [List.head?_cons, h4, if_false, List.length_cons, ne_eq]
      split
      · exact ⟨_, rfl⟩
      · simp
    obtain ⟨e, he⟩ := hk
    apply herr _ e
    unfold kstrtoll
    have h1 : (d :: ds1 ++ [c]).head? = some d := rfl
    have h2 : ¬ (some d = some '-') := by simpa using hminus
    have h3 : ¬ (some d = some '+') := by simpa using hplus
    simp only [h1, h2, h3, if_false, he]

/-- The lookup `mmcblk_get` when no block device is cached and the minor
number is still to be computed. -/
theorem mmcblk_get_fresh (cfg : Config) (env : Env) (w : World)
    (hbdev : w.statics._shdev_mmc_bdev = none)
    (hminor : w.statics._mmc_block_minor = -1) :
    (∀ e, mmc_block_minor cfg = .error e → mmcblk_get cfg env w = (.error e, w)) ∧
    (∀ m, mmc_block_minor cfg = .ok m →
      (mmcblk_get cfg env w).2.statics._mmc_block_minor = m ∧
      (mmcblk_get cfg env w).2.trace = w.trace ++ [.blkdev_get_by_dev m] ∧
      (mmcblk_get cfg env w).1 =
        if env.blkdev_get_by_dev w.trace m = true then .ok m else .error (-EINVAL)) := by
  constructor
  · intro e he
    unfold mmcblk_get
    simp only [hbdev, hminor, if_true, he]
  · intro m hm
    unfold mmcblk_get
    simp only [hbdev, hminor, if_true, hm]
    split <;> simp [World.emit]

/-- The minor number computed from a device path whose string at `p` is a
non-empty run of digits, possibly followed by one newline. -/
theorem mmc_block_minor_digits (cfg : Config) (ds rest : List Char)
    (hdevid : cfg.PROVENCORE_MMC_DEVID = none)
    (hsuffix : devname_suffix cfg.PROVENCORE_MMC_DEVICE = ds ++ rest)
    (hne : ds ≠ []) (hds : ∀ c ∈ ds, c.isDigit = true)
    (hrest : rest = [] ∨ rest = [Char.ofNat 10])
    (hminors : 0 < cfg.MMC_BLOCK_MINORS) (hbits : 32 ≤ cfg.BITS_PER_LONG) :
    (Int.tdiv INT_MAX cfg.MMC_BLOCK_MINORS < decimal_value ds →
      mmc_block_minor cfg = .error (-EINVAL)) ∧
    ((decimal_value ds : Int) ≤ Int.tdiv INT_MAX cfg.MMC_BLOCK_MINORS →
      0 ≤ decimal_value ds * cfg.MMC_BLOCK_MINORS ∧
      decimal_value ds * cfg.MMC_BLOCK_MINORS ≤ INT_MAX ∧
      mmc_block_minor cfg = .ok (decimal_value ds * cfg.MMC_BLOCK_MINORS)) := by
  have hk := kstrtol_digits cfg ds rest hne hds hrest
  have h0 : (0 : Int) ≤ decimal_value ds := Int.ofNat_nonneg _
  constructor
  · intro hbig
    unfold mmc_block_minor
    rw [hdevid]
    simp only [hsuffix]
    rcases hk.1 with ⟨e, he⟩ | hok
    · rw [he]
    · rw [hok]
      simp only []
      rw [if_pos (Or.inr hbig)]
  · intro hsmall
    have hmax : (0 : Int) ≤ INT_MAX := by decide
    rw [Int.tdiv_eq_ediv hmax (le_of_lt hminors)] at hsmall
    have hmul : decimal_value ds * cfg.MMC_BLOCK_MINORS ≤ INT_MAX :=
      (Int.le_ediv_iff_mul_le hminors).mp hsmall
    have hle : (decimal_value ds : Int) ≤ INT_MAX :=
      le_trans hsmall (Int.ediv_le_self _ hmax)
    have hpos : (0 : Int) ≤ decimal_value ds * cfg.MMC_BLOCK_MINORS :=
      Int.mul_nonneg h0 (le_of_lt hminors)
    have hmaxv : INT_MAX = 2147483647 := by decide
    have hlt : decimal_value ds < 2 ^ 31 := by
      have : (decimal_value ds : Int) < 2 ^ 31 := by rw [hmaxv] at hle; omega
      exact_mod_cast this
    have hok := hk.2 hbits hlt
    refine ⟨hpos, hmul, ?_⟩
    unfold mmc_block_minor
    rw [hdevid]
    simp only [hsuffix]
    rw [hok]
    simp only []
    have hnot : ¬ ((decimal_value ds : Int) < 0 ∨
        (decimal_value ds : Int) > Int.tdiv INT_MAX cfg.MMC_BLOCK_MINORS) := by
      rw [Int.tdiv_eq_ediv hmax (le_of_lt hminors)]
      intro h
      rcases h with h | h
      · omega
      · exact absurd hsmall (not_le.mpr h)
    rw [if_neg hnot]
    have h1 : toInt32 (decimal_value ds : Int) = decimal_value ds := by
      unfold toInt32; rw [hmaxv] at hle; omega
    rw [h1]
    have h2 : toInt32 (decimal_value ds * cfg.MMC_BLOCK_MINORS) =
        decimal_value ds * cfg.MMC_BLOCK_MINORS := by
      unfold toInt32; rw [hmaxv] at hmul; omega
    rw [h2]

/-- C23 (counterexample): the path `/dev/mmcblk1` followed by a newline ends
with a character that is not a digit, and `mmcblk_get` does not return
`ERR_PTR(-EINVAL)` for it: the minor number is 8 and the block device of that
minor is returned. -/
theorem mmcblk_get_newline_path_accepted :
    (cfgPath ("/dev/mmcblk1".toList ++ [Char.ofNat 10])).PROVENCORE_MMC_DEVICE.getLast? =
      some (Char.ofNat 10) ∧
    (Char.ofNat 10).isDigit = false ∧
    devname_suffix (cfgPath ("/dev/mmcblk1".toList ++ [Char.ofNat 10])).PROVENCORE_MMC_DEVICE =
      ['1', Char.ofNat 10] ∧
    kstrtol (cfgPath ("/dev/mmcblk1".toList ++ [Char.ofNat 10])) ['1', Char.ofNat 10] =
      .ok 1 ∧
    mmc_block_minor (cfgPath ("/dev/mmcblk1".toList ++ [Char.ofNat 10])) = .ok 8 ∧
    (mmcblk_get (cfgPath ("/dev/mmcblk1".toList ++ [Char.ofNat 10])) (envOk 0 0 0)
      worldZero).1 = .ok 8 ∧
    (mmcblk_get (cfgPath ("/dev/mmcblk1".toList ++ [Char.ofNat 10])) (envOk 0 0 0)
      worldZero).2.trace = [.blkdev_get_by_dev 8] :=
  ⟨by decide, by decide, by decide, rfl, rfl, rfl, by decide⟩

/-- C23 (amended): in `mmcblk_get`, when no block device is cached and the
minor number is derived from the configured device path, a non-empty path
`body ++ [c]`, with `CONFIG_MMC_BLOCK_MINORS` positive. If the last character
`c` is not a digit the result is `ERR_PTR(-EINVAL)` and nothing changes,
unless `c` is a newline that follows a digit. If `c` is a digit, the numeric
id is the decimal value of the maximal run of digits ending the path; if `c`
is a newline that follows a digit, it is the decimal value of the maximal run
of digits before the newline. An id greater than
`INT_MAX / CONFIG_MMC_BLOCK_MINORS` yields `ERR_PTR(-EINVAL)`; otherwise the
minor is `id * CONFIG_MMC_BLOCK_MINORS`, between 0 and `INT_MAX`, without any
wrap of the 32-bit product, and the block device of that minor is looked
up. -/
theorem mmcblk_get_minor_from_path (cfg : Config) (env : Env) (w : World)
    (body : List Char) (c : Char)
    (hdevid : cfg.PROVENCORE_MMC_DEVID = none)
    (hpath : cfg.PROVENCORE_MMC_DEVICE = body ++ [c])
    (hminors : 0 < cfg.MMC_BLOCK_MINORS)
    (hbits : 32 ≤ cfg.BITS_PER_LONG)
    (hbdev : w.statics._shdev_mmc_bdev = none)
    (hminor : w.statics._mmc_block_minor = -1) :
    (c.isDigit = false → (c = Char.ofNat 10 → trailing_digits body = []) →
      mmcblk_get cfg env w = (.error (-EINVAL), w)) ∧
    (∀ ds : List Char,
      (c.isDigit = true ∧ ds = trailing_digits cfg.PROVENCORE_MMC_DEVICE) ∨
        (c = Char.ofNat 10 ∧ ds = trailing_digits body ∧ ds ≠ []) →
      (Int.tdiv INT_MAX cfg.MMC_BLOCK_MINORS < decimal_value ds →
        mmcblk_get cfg env w = (.error (-EINVAL), w)) ∧
      ((decimal_value ds : Int) ≤ Int.tdiv INT_MAX cfg.MMC_BLOCK_MINORS →
        0 ≤ decimal_value ds * cfg.MMC_BLOCK_MINORS ∧
        decimal_value ds * cfg.MMC_BLOCK_MINORS ≤ INT_MAX ∧
        mmc_block_minor cfg = .ok (decimal_value ds * cfg.MMC_BLOCK_MINORS) ∧
        (mmcblk_get cfg env w).2.statics._mmc_block_minor =
          decimal_value ds * cfg.MMC_BLOCK_MINORS ∧
        (mmcblk_get cfg env w).2.trace =
          w.trace ++ [.blkdev_get_by_dev (decimal_value ds * cfg.MMC_BLOCK_MINORS)] ∧
        (mmcblk_get cfg env w).1 =
          if env.blkdev_get_by_dev w.trace (decimal_value ds * cfg.MMC_BLOCK_MINORS) = true
          then .ok (decimal_value ds * cfg.MMC_BLOCK_MINORS) else .error (-EINVAL))) := by
  have hfresh := mmcblk_get_fresh cfg env w hbdev hminor
  have hsuffix : devname_suffix cfg.PROVENCORE_MMC_DEVICE = trailing_digits body ++ [c] := by
    rw [hpath, devname_suffix_append]
  constructor
  · intro hc hnl
    apply hfresh.1
    obtain ⟨e, he⟩ := kstrtol_not_digit cfg (trailing_digits body) c
      (trailing_digits_isDigit body) hc hnl
    unfold mmc_block_minor
    rw [hdevid]
    simp only [hsuffix]
    rw [he]
  · intro ds hds
    have hshape : ∃ rest, devname_suffix cfg.PROVENCORE_MMC_DEVICE = ds ++ rest ∧
        ds ≠ [] ∧ (∀ x ∈ ds, x.isDigit = true) ∧ (rest = [] ∨ rest = [Char.ofNat 10]) := by
      rcases hds with ⟨hc, hd⟩ | ⟨hc, hd, hne⟩
      · refine ⟨[], ?_, ?_, ?_, Or.inl rfl⟩
        · rw [hsuffix, hd, hpath, trailing_digits_append_digit body c hc, List.append_nil]
        · rw [hd, hpath, trailing_digits_append_digit body c hc]
          simp
        · rw [hd]
          exact trailing_digits_isDigit _
      · refine ⟨[Char.ofNat 10], ?_, hne, ?_, Or.inr rfl⟩
        · rw [hsuffix, hd, hc]
        · rw [hd]
          exact trailing_digits_isDigit _
    obtain ⟨rest, hs, hne, hall, hrest⟩ := hshape
    have hm := mmc_block_minor_digits cfg ds rest hdevid hs hne hall hrest hminors hbits
    constructor
    · intro hbig
      exact hfresh.1 _ (hm.1 hbig)
    · intro hsmall
      obtain ⟨h1, h2, h3⟩ := hm.2 hsmall
      obtain ⟨h4, h5, h6⟩ := hfresh.2 _ h3
      exact ⟨h1, h2, h3, h4, h5, h6⟩

/-- Witness of C23: the path `/dev/mmcblk12` with 8 minors per device gives
the minor number 96. -/
theorem mmcblk_get_minor_from_path_witness :
    (mmcblk_get (cfgPath ("/dev/mmcblk12".toList)) (envOk 0 0 0)
      worldZero).2.statics._mmc_block_minor = 96 ∧
    (mmcblk_get (cfgPath ("/dev/mmcblk12".toList)) (envOk 0 0 0) worldZero).2.trace =
      [.blkdev_get_by_dev 96] :=
  have h := ((mmcblk_get_minor_from_path (cfgPath ("/dev/mmcblk12".toList)) (envOk 0 0 0)
    worldZero ("/dev/mmcblk1".toList) '2' rfl rfl (by decide) (by decide) rfl rfl).2
    ['1', '2'] (Or.inl ⟨rfl, rfl⟩)).2 (by decide)
  ⟨h.2.2.2.1, h.2.2.2.2.1⟩

end Shdev
